import Mathlib

/-!
# The TLPI support library: error reporting and numeric argument parsing

A shallow embedding of `lib/error_functions.c` and `lib/get_num.c`.

* A C string is the list of its characters before the terminating NUL, one
  `Char` per byte, so a string of `n` characters occupies `n + 1` bytes.
* A nullable `const char *` is an `Option CString`.
* The process is a `State`: the ambient `errno` and the trace of stream events.
* What the C library and the operating system supply (the `ename` table of
  `ename.c.inc`, `strerror`, `getenv`, the value library calls leave in
  `errno`) is a `Platform`, over which every theorem is universally quantified.
* `printf`-style formatting is done by the C library: each operation receives
  `formatted`, the text its format and arguments expand to when space is
  unbounded, and the model applies the size bound of `snprintf`.
* `long` is 64 bits wide and `int` 32 bits wide (LP64).
-/

namespace TLPI

/-- A C string without its terminating NUL. -/
abbrev CString := List Char

/-! ## lib/error_functions.c -/

/-- The constant `#define MAX_ENAME 100`. -/
def MAX_ENAME : Int := 100

/-- The constant `#define BUF_SIZE 500`. -/
def BUF_SIZE : Nat := 500

/-- The constant `EXIT_FAILURE` of `<stdlib.h>`. -/
def EXIT_FAILURE : Nat := 1

/-- How a process ends: `abort()`, `exit(status)` or `_exit(status)`. -/
inductive Termination where
  | abort
  | exit (status : Nat)
  | _exit (status : Nat)
  deriving DecidableEq, Repr

/-- An observable action on the standard streams. -/
inductive Event where
  | flushStdout
  | writeStderr (text : CString)
  | flushStderr
  deriving DecidableEq, Repr

/-- The process state the library reads and changes. -/
structure State where
  errno : Int
  trace : List Event
  deriving DecidableEq, Repr

/-- What the C library and operating system provide. -/
structure Platform where
  /-- The array `ename` of `ename.c.inc`, indexed from 0. -/
  ename : List CString
  /-- The function `strerror(3)`. -/
  strerror : Int → CString
  /-- The function `getenv(3)`. -/
  getenv : CString → Option CString
  /-- The value of `errno` after the library calls of one diagnostic, given
  its value before them. -/
  libcErrno : Int → Int

/-- A process that has ended: what it did to the streams, and how it ended. -/
structure Halt where
  trace : List Event
  how : Termination
  deriving DecidableEq, Repr

/-- Everything written to standard error in a trace, in order. -/
def stderrText : List Event → CString
  | [] => []
  | Event.writeStderr t :: es => t ++ stderrText es
  | _ :: es => stderrText es

/-- The size bound of `snprintf(buf, size, ...)`: of the text the format
expands to, at most `size - 1` characters are stored before the NUL. -/
def snprintf (size : Nat) (text : CString) : CString :=
  text.take (size - 1)

/-- The function `terminate(useExit3)`. -/
def terminate (p : Platform) (useExit3 : Bool) : Termination :=
  let s := p.getenv "EF_DUMPCORE".toList
  if s ≠ none ∧ s ≠ some [] then
    Termination.abort
  else if useExit3 then
    Termination.exit EXIT_FAILURE
  else
    Termination._exit EXIT_FAILURE

/-- The expression `(err > 0 && err <= MAX_ENAME) ? ename[err] : "?UNKNOWN?"`;
`none` is a read outside the array. -/
def errName (p : Platform) (err : Int) : Option CString :=
  if err > 0 ∧ err ≤ MAX_ENAME then p.ename[err.toNat]? else some "?UNKNOWN?".toList

/-- The contents of `errText` in `outputError`. -/
def errText (p : Platform) (useErr : Bool) (err : Int) : Option CString :=
  if useErr then do
    let name ← errName p err
    pure (snprintf BUF_SIZE (" [".toList ++ name ++ " ".toList ++ p.strerror err ++ "]".toList))
  else
    pure (snprintf BUF_SIZE ":".toList)

/-- The function `outputError(useErr, err, flushStdout, format, ap)`. -/
def outputError (p : Platform) (useErr : Bool) (err : Int) (flushStdout : Bool)
    (formatted : CString) (s : State) : Option State := do
  let userMsg := snprintf BUF_SIZE formatted
  let errText ← errText p useErr err
  let buf := snprintf BUF_SIZE ("ERROR".toList ++ errText ++ " ".toList ++ userMsg ++ "\n".toList)
  let flush := if flushStdout then [Event.flushStdout] else []
  pure { errno := p.libcErrno s.errno,
         trace := s.trace ++ flush ++ [Event.writeStderr buf, Event.flushStderr] }

/-- The function `errMsg(format, ...)`. -/
def errMsg (p : Platform) (formatted : CString) (s : State) : Option State := do
  let savedErrno := s.errno
  let s1 ← outputError p true s.errno true formatted s
  pure { s1 with errno := savedErrno }

/-- The function `errExit(format, ...)`. -/
def errExit (p : Platform) (formatted : CString) (s : State) : Option Halt := do
  let s1 ← outputError p true s.errno true formatted s
  pure { trace := s1.trace, how := terminate p true }

/-- The function `err_exit(format, ...)`. -/
def err_exit (p : Platform) (formatted : CString) (s : State) : Option Halt := do
  let s1 ← outputError p true s.errno false formatted s
  pure { trace := s1.trace, how := terminate p false }

/-- The function `errExitEN(errnum, format, ...)`. -/
def errExitEN (p : Platform) (errnum : Int) (formatted : CString) (s : State) : Option Halt := do
  let s1 ← outputError p true errnum true formatted s
  pure { trace := s1.trace, how := terminate p true }

/-- The function `fatal(format, ...)`. -/
def fatal (p : Platform) (formatted : CString) (s : State) : Option Halt := do
  let s1 ← outputError p false 0 true formatted s
  pure { trace := s1.trace, how := terminate p true }

/-- The function `usageErr(format, ...)`. -/
def usageErr (_p : Platform) (formatted : CString) (s : State) : Halt :=
  { trace := s.trace ++ [Event.flushStdout, Event.writeStderr "Usage: ".toList,
                         Event.writeStderr formatted, Event.flushStderr],
    how := Termination.exit EXIT_FAILURE }

/-- The function `cmdLineErr(format, ...)`. -/
def cmdLineErr (_p : Platform) (formatted : CString) (s : State) : Halt :=
  { trace := s.trace ++ [Event.flushStdout, Event.writeStderr "Command-line usage error: ".toList,
                         Event.writeStderr formatted, Event.flushStderr],
    how := Termination.exit EXIT_FAILURE }

/-! ## The C library function `strtol`

`strtol` belongs to the C library, not to this repository. It is modelled
after ISO C 7.22.1.4 as glibc implements it in the "C" locale: leading white
space, an optional sign, an optional `0x` prefix when the base is 0 or 16, the
longest run of digits of the base; an out-of-range value is clamped and
reported as `ERANGE`; when there are no digits the result is 0, `endptr` is
the start of the text and `errno` is left alone. -/

/-- The constant `LONG_MAX` (64-bit `long`). -/
def LONG_MAX : Int := 9223372036854775807

/-- The constant `LONG_MIN` (64-bit `long`). -/
def LONG_MIN : Int := -9223372036854775808

/-- The constant `INT_MAX` (32-bit `int`). -/
def INT_MAX : Int := 2147483647

/-- The constant `INT_MIN` (32-bit `int`). -/
def INT_MIN : Int := -2147483648

/-- The constant `ERANGE` of `<errno.h>`. -/
def ERANGE : Int := 34

/-- The function `isspace` in the "C" locale. -/
def isspace (c : Char) : Bool :=
  c = ' ' || c = '\t' || c = '\n' || c = '\x0b' || c = '\x0c' || c = '\r'

/-- The value of a character as a digit or letter, if it has one. -/
def digitVal (c : Char) : Option Nat :=
  if '0' ≤ c ∧ c ≤ '9' then some (c.toNat - '0'.toNat)
  else if 'a' ≤ c ∧ c ≤ 'z' then some (c.toNat - 'a'.toNat + 10)
  else if 'A' ≤ c ∧ c ≤ 'Z' then some (c.toNat - 'A'.toNat + 10)
  else none

/-- The value of a character as a digit of the given base, if it is one. -/
def digitIn (base : Nat) (c : Char) : Option Nat :=
  match digitVal c with
  | some d => if d < base then some d else none
  | none => none

/-- Reads the longest run of digits of the base: the value accumulated from
`acc` and the text left over. -/
def scanDigits (base : Nat) : CString → Nat → Nat × CString
  | [], acc => (acc, [])
  | c :: cs, acc =>
    match digitIn base c with
    | some d => scanDigits base cs (acc * base + d)
    | none => (acc, c :: cs)

/-- Skips leading white space. -/
def skipSpace : CString → CString
  | [] => []
  | c :: cs => if isspace c then skipSpace cs else c :: cs

/-- Reads an optional sign: whether it is a minus, and the text after it. -/
def readSign : CString → Bool × CString
  | '-' :: cs => (true, cs)
  | '+' :: cs => (false, cs)
  | cs => (false, cs)

/-- Settles the base and skips a `0x` prefix: the base to convert in, and
the text the digits are read from. -/
def readBase (base : Nat) (s : CString) : Nat × CString :=
  if base = 0 ∨ base = 16 then
    match s with
    | '0' :: x :: h :: t =>
      if (x = 'x' ∨ x = 'X') ∧ (digitIn 16 h).isSome then (16, h :: t)
      else (if base = 0 then 8 else base, s)
    | '0' :: _ => (if base = 0 then 8 else base, s)
    | _ => (if base = 0 then 10 else base, s)
  else (base, s)

/-- What a call of `strtol` yields: the returned value, the text at
`*endptr`, and `errno` after the call. -/
structure StrtolResult where
  res : Int
  endptr : CString
  errno : Int
  deriving DecidableEq, Repr

/-- The function `strtol(nptr, &endptr, base)` called with `errno` as given. -/
def strtol (nptr : CString) (base : Nat) (errno : Int) : StrtolResult :=
  let signed := readSign (skipSpace nptr)
  let based := readBase base signed.2
  let scanned := scanDigits based.1 based.2 0
  if scanned.2.length = based.2.length then
    { res := 0, endptr := nptr, errno := errno }
  else
    let v : Int := if signed.1 then -(scanned.1 : Int) else (scanned.1 : Int)
    if v > LONG_MAX then { res := LONG_MAX, endptr := scanned.2, errno := ERANGE }
    else if v < LONG_MIN then { res := LONG_MIN, endptr := scanned.2, errno := ERANGE }
    else { res := v, endptr := scanned.2, errno := errno }

/-- Whether `strtol` finds no digit to convert in the text: after white
space, sign and base prefix, the run of digits is empty. -/
def noConversion (nptr : CString) (base : Nat) : Bool :=
  let based := readBase base (readSign (skipSpace nptr)).2
  (scanDigits based.1 based.2 0).2.length = based.2.length

/-! ## lib/get_num.h and lib/get_num.c -/

/-- The flag `#define GN_NONNEG 01`. -/
def GN_NONNEG : Nat := 0o1

/-- The flag `#define GN_GT_0 02`. -/
def GN_GT_0 : Nat := 0o2

/-- The flag `#define GN_ANY_BASE 0100`. -/
def GN_ANY_BASE : Nat := 0o100

/-- The flag `#define GN_BASE_8 0200`. -/
def GN_BASE_8 : Nat := 0o200

/-- The flag `#define GN_BASE_16 0400`. -/
def GN_BASE_16 : Nat := 0o400

/-- The function `gnFail(fname, msg, arg, name)`: the process it ends. -/
def gnFail (fname msg : CString) (arg name : Option CString) : Halt :=
  let e1 := [Event.writeStderr (fname ++ " error".toList)]
  let e2 := match name with
    | some n => [Event.writeStderr (" (in ".toList ++ n ++ ")".toList)]
    | none => []
  let e3 := [Event.writeStderr (": ".toList ++ msg ++ "\n".toList)]
  let e4 := match arg with
    | some (c :: cs) => [Event.writeStderr (" offending text: ".toList ++ (c :: cs) ++ "\n".toList)]
    | _ => []
  { trace := e1 ++ e2 ++ e3 ++ e4, how := Termination.exit EXIT_FAILURE }

/-- The conversion base `getNum` derives from `flags`. -/
def getBase (flags : Nat) : Nat :=
  if flags &&& GN_ANY_BASE ≠ 0 then 0
  else if flags &&& GN_BASE_8 ≠ 0 then 8
  else if flags &&& GN_BASE_16 ≠ 0 then 16
  else 10

/-- The function `getNum(fname, arg, flags, name)`; `flags` is the bit
pattern of the `int` argument. -/
def getNum (fname : CString) (arg : Option CString) (flags : Nat) (name : Option CString) :
    Except Halt Int :=
  match arg with
  | none => Except.error (gnFail fname "null or empty string".toList arg name)
  | some a =>
    if a = [] then
      Except.error (gnFail fname "null or empty string".toList arg name)
    else
      let base := getBase flags
      let r := strtol a base 0
      if r.errno ≠ 0 then
        Except.error (gnFail fname "strtol() failed".toList arg name)
      else if r.endptr ≠ [] then
        Except.error (gnFail fname "nonnumeric characters".toList arg name)
      else if flags &&& GN_NONNEG ≠ 0 ∧ r.res < 0 then
        Except.error (gnFail fname "negative value not allowed".toList arg name)
      else if flags &&& GN_GT_0 ≠ 0 ∧ r.res ≤ 0 then
        Except.error (gnFail fname "value must be > 0".toList arg name)
      else
        Except.ok r.res

/-- The function `getLong(arg, flags, name)`. -/
def getLong (arg : Option CString) (flags : Nat) (name : Option CString) : Except Halt Int :=
  getNum "getLong".toList arg flags name

/-- The cast `(int) res` of a `long` to a 32-bit `int`. -/
def castInt (res : Int) : Int :=
  (res + 2147483648) % 4294967296 - 2147483648

/-- The function `getInt(arg, flags, name)`. -/
def getInt (arg : Option CString) (flags : Nat) (name : Option CString) : Except Halt Int :=
  match getNum "getInt".toList arg flags name with
  | Except.error h => Except.error h
  | Except.ok res =>
    if res > INT_MAX ∨ res < INT_MIN then
      Except.error (gnFail "getInt".toList "integer out of range".toList arg name)
    else
      Except.ok (castInt res)

/-- The decimal digits of a natural number, most significant first, as
`printf("%lu")` writes them. -/
def natDecimal (n : Nat) : CString :=
  Nat.toDigits 10 n

/-- The decimal text of an integer, as `printf("%ld")` writes it. -/
def decimalText (n : Int) : CString :=
  if n < 0 then '-' :: natDecimal n.natAbs else natDecimal n.natAbs


/-! ## The validation sequence as the specification words it -/

/-- The checks of the validation sequence of `getNum`. -/
inductive Check where
  | nullOrEmpty
  | conversion
  | trailing
  | negative
  | notPositive
  deriving DecidableEq, Repr

/-- The fixed order of the checks. -/
def checkOrder : List Check :=
  [Check.nullOrEmpty, Check.conversion, Check.trailing, Check.negative, Check.notPositive]

/-- The diagnostic `getNum` gives for each check. -/
def checkMsg : Check → CString
  | Check.nullOrEmpty => "null or empty string".toList
  | Check.conversion => "strtol() failed".toList
  | Check.trailing => "nonnumeric characters".toList
  | Check.negative => "negative value not allowed".toList
  | Check.notPositive => "value must be > 0".toList

/-- The numeric conversion of the argument text under the base of `flags`,
started with `errno` cleared. -/
def convert (arg : Option CString) (flags : Nat) : StrtolResult :=
  strtol (arg.getD []) (getBase flags) 0

/-- Whether the input violates a check, each check taken on its own. -/
def violates (arg : Option CString) (flags : Nat) : Check → Bool
  | Check.nullOrEmpty => arg = none ∨ arg = some []
  | Check.conversion => (convert arg flags).errno ≠ 0
  | Check.trailing => (convert arg flags).endptr ≠ []
  | Check.negative => flags &&& GN_NONNEG ≠ 0 ∧ (convert arg flags).res < 0
  | Check.notPositive => flags &&& GN_GT_0 ≠ 0 ∧ (convert arg flags).res ≤ 0

/-- The first check, in the fixed order, that the input violates. -/
def firstViolated (arg : Option CString) (flags : Nat) : Option Check :=
  checkOrder.find? (violates arg flags)

/-- The validation sequence: the diagnostic of the first violated check, or
the converted value when no check is violated. -/
def validate (fname : CString) (arg : Option CString) (flags : Nat) (name : Option CString) :
    Except Halt Int :=
  match firstViolated arg flags with
  | some c => Except.error (gnFail fname (checkMsg c) arg name)
  | none => Except.ok (convert arg flags).res

/-- The text of a validator failure as the specification words it: the
function name and " error", the name in parentheses if there is one, the
message on the rest of the line, and a line with the offending text if there
is a non-empty one. -/
def failureText (fname msg : CString) (arg name : Option CString) : CString :=
  fname ++ " error".toList ++
    (match name with
      | some n => " (in ".toList ++ n ++ ")".toList
      | none => []) ++
    ": ".toList ++ msg ++ "\n".toList ++
    (match arg with
      | none => []
      | some a => if a = [] then [] else " offending text: ".toList ++ a ++ "\n".toList)

/-- A Linux-like platform for concrete evaluations: the first entries of the
error-name table padded to `MAX_ENAME + 1` names, no environment variables. -/
def linuxPlatform : Platform :=
  { ename := ["".toList, "EPERM".toList, "ENOENT".toList] ++ List.replicate 98 "E".toList,
    strerror := fun e =>
      if e = 0 then "Success".toList
      else if e = 1 then "Operation not permitted".toList
      else if e = 2 then "No such file or directory".toList
      else "Unknown error".toList,
    getenv := fun _ => none,
    libcErrno := fun _ => 25 }

/-- The platform `linuxPlatform` with `EF_DUMPCORE=1` in the environment. -/
def dumpCorePlatform : Platform :=
  { linuxPlatform with
    getenv := fun k => if k = "EF_DUMPCORE".toList then some "1".toList else none }

/-- The error-name table of Linux on x86-64, as the build generates
`ename.c.inc` from the system's `errno.h`: entries 0 to 133. -/
def linuxEname : List CString :=
  ["".toList, "EPERM".toList, "ENOENT".toList, "ESRCH".toList, "EINTR".toList, "EIO".toList,
   "ENXIO".toList, "E2BIG".toList, "ENOEXEC".toList, "EBADF".toList, "ECHILD".toList,
   "EAGAIN/EWOULDBLOCK".toList, "ENOMEM".toList, "EACCES".toList, "EFAULT".toList,
   "ENOTBLK".toList, "EBUSY".toList, "EEXIST".toList, "EXDEV".toList, "ENODEV".toList,
   "ENOTDIR".toList, "EISDIR".toList, "EINVAL".toList, "ENFILE".toList, "EMFILE".toList,
   "ENOTTY".toList, "ETXTBSY".toList, "EFBIG".toList, "ENOSPC".toList, "ESPIPE".toList,
   "EROFS".toList, "EMLINK".toList, "EPIPE".toList, "EDOM".toList, "ERANGE".toList,
   "EDEADLK/EDEADLOCK".toList, "ENAMETOOLONG".toList, "ENOLCK".toList, "ENOSYS".toList,
   "ENOTEMPTY".toList, "ELOOP".toList, "".toList, "ENOMSG".toList, "EIDRM".toList,
   "ECHRNG".toList, "EL2NSYNC".toList, "EL3HLT".toList, "EL3RST".toList, "ELNRNG".toList,
   "EUNATCH".toList, "ENOCSI".toList, "EL2HLT".toList, "EBADE".toList, "EBADR".toList,
   "EXFULL".toList, "ENOANO".toList, "EBADRQC".toList, "EBADSLT".toList, "".toList,
   "EBFONT".toList, "ENOSTR".toList, "ENODATA".toList, "ETIME".toList, "ENOSR".toList,
   "ENONET".toList, "ENOPKG".toList, "EREMOTE".toList, "ENOLINK".toList, "EADV".toList,
   "ESRMNT".toList, "ECOMM".toList, "EPROTO".toList, "EMULTIHOP".toList, "EDOTDOT".toList,
   "EBADMSG".toList, "EOVERFLOW".toList, "ENOTUNIQ".toList, "EBADFD".toList, "EREMCHG".toList,
   "ELIBACC".toList, "ELIBBAD".toList, "ELIBSCN".toList, "ELIBMAX".toList, "ELIBEXEC".toList,
   "EILSEQ".toList, "ERESTART".toList, "ESTRPIPE".toList, "EUSERS".toList, "ENOTSOCK".toList,
   "EDESTADDRREQ".toList, "EMSGSIZE".toList, "EPROTOTYPE".toList, "ENOPROTOOPT".toList,
   "EPROTONOSUPPORT".toList, "ESOCKTNOSUPPORT".toList, "EOPNOTSUPP/ENOTSUP".toList,
   "EPFNOSUPPORT".toList, "EAFNOSUPPORT".toList, "EADDRINUSE".toList, "EADDRNOTAVAIL".toList,
   "ENETDOWN".toList, "ENETUNREACH".toList, "ENETRESET".toList, "ECONNABORTED".toList,
   "ECONNRESET".toList, "ENOBUFS".toList, "EISCONN".toList, "ENOTCONN".toList,
   "ESHUTDOWN".toList, "ETOOMANYREFS".toList, "ETIMEDOUT".toList, "ECONNREFUSED".toList,
   "EHOSTDOWN".toList, "EHOSTUNREACH".toList, "EALREADY".toList, "EINPROGRESS".toList,
   "ESTALE".toList, "EUCLEAN".toList, "ENOTNAM".toList, "ENAVAIL".toList, "EISNAM".toList,
   "EREMOTEIO".toList, "EDQUOT".toList, "ENOMEDIUM".toList, "EMEDIUMTYPE".toList,
   "ECANCELED".toList, "ENOKEY".toList, "EKEYEXPIRED".toList, "EKEYREVOKED".toList,
   "EKEYREJECTED".toList, "EOWNERDEAD".toList, "ENOTRECOVERABLE".toList, "ERFKILL".toList,
   "EHWPOISON".toList]

/-- A Linux platform with the whole error-name table `linuxEname`. -/
def linuxTablePlatform : Platform :=
  { ename := linuxEname,
    strerror := fun e =>
      if e = 0 then "Success".toList
      else if e = 60 then "Device not a stream".toList
      else if e = 101 then "Network is unreachable".toList
      else "Unknown error".toList,
    getenv := fun _ => none,
    libcErrno := fun _ => 25 }

/-- A platform whose error-name table has only the entries 0 to 50. -/
def shortTablePlatform : Platform :=
  { linuxTablePlatform with ename := linuxEname.take 51 }

/-! ## Lemmas shared by the theorems -/

theorem stderrText_append (a b : List Event) :
    stderrText (a ++ b) = stderrText a ++ stderrText b := by
  induction a with
  | nil => rfl
  | cons e es ih => cases e <;> simp [stderrText, ih]

theorem snprintf_of_fits (size : Nat) (text : CString) (h : text.length < size) :
    snprintf size text = text := by
  unfold snprintf
  exact List.take_of_length_le (by omega)

theorem errName_of_table (p : Platform) (err : Int)
    (htab : MAX_ENAME < (p.ename.length : Int)) : ∃ name, errName p err = some name := by
  unfold errName
  split
  · rename_i h
    have hlt : err.toNat < p.ename.length := by omega
    exact ⟨p.ename[err.toNat], List.getElem?_eq_getElem hlt⟩
  · exact ⟨_, rfl⟩

theorem outputError_of_name (p : Platform) (err : Int) (flushStdout : Bool)
    (formatted : CString) (s : State) (name : CString) (hname : errName p err = some name) :
    outputError p true err flushStdout formatted s =
      some { errno := p.libcErrno s.errno,
             trace := s.trace ++ (if flushStdout then [Event.flushStdout] else []) ++
               [Event.writeStderr (snprintf BUF_SIZE ("ERROR".toList ++
                  snprintf BUF_SIZE (" [".toList ++ name ++ " ".toList ++ p.strerror err ++
                    "]".toList) ++ " ".toList ++ snprintf BUF_SIZE formatted ++ "\n".toList)),
                Event.flushStderr] } := by
  simp [outputError, errText, hname]

theorem outputError_no_err (p : Platform) (err : Int) (flushStdout : Bool)
    (formatted : CString) (s : State) :
    outputError p false err flushStdout formatted s =
      some { errno := p.libcErrno s.errno,
             trace := s.trace ++ (if flushStdout then [Event.flushStdout] else []) ++
               [Event.writeStderr (snprintf BUF_SIZE ("ERROR".toList ++
                  snprintf BUF_SIZE ":".toList ++ " ".toList ++ snprintf BUF_SIZE formatted ++
                  "\n".toList)),
                Event.flushStderr] } := by
  simp [outputError, errText]

theorem stderrText_flush (flushStdout : Bool) :
    stderrText (if flushStdout then [Event.flushStdout] else []) = [] := by
  cases flushStdout <;> rfl

/-! ## The diagnostic line (C1) -/

/-- C1: when the composed line fits the 500-byte buffer, `outputError` appends
to standard error exactly `ERROR [<name> <strerror(err)>] <m>\n` if `useErr`
is true, `name` being what the name expression yields (`ename[err]` or the
unknown marker), and exactly `ERROR: <m>\n` if `useErr` is false. -/
theorem outputError_writes_line (p : Platform) (err : Int) (flushStdout : Bool)
    (m : CString) (s : State) :
    (∀ name, errName p err = some name →
      ("ERROR [".toList ++ name ++ " ".toList ++ p.strerror err ++ "] ".toList ++ m ++
        "\n".toList).length < BUF_SIZE →
      ∃ s1, outputError p true err flushStdout m s = some s1 ∧
        stderrText s1.trace = stderrText s.trace ++
          ("ERROR [".toList ++ name ++ " ".toList ++ p.strerror err ++ "] ".toList ++ m ++
            "\n".toList)) ∧
    (("ERROR: ".toList ++ m ++ "\n".toList).length < BUF_SIZE →
      ∃ s1, outputError p false err flushStdout m s = some s1 ∧
        stderrText s1.trace = stderrText s.trace ++ ("ERROR: ".toList ++ m ++ "\n".toList)) := by
  constructor
  · intro name hname hfit
    refine ⟨_, outputError_of_name p err flushStdout m s name hname, ?_⟩
    simp [BUF_SIZE] at hfit
    have h1 : snprintf BUF_SIZE m = m := snprintf_of_fits _ _ (by simp [BUF_SIZE]; omega)
    have h2 : snprintf BUF_SIZE (" [".toList ++ name ++ " ".toList ++ p.strerror err ++
        "]".toList) = " [".toList ++ name ++ " ".toList ++ p.strerror err ++ "]".toList :=
      snprintf_of_fits _ _ (by simp [BUF_SIZE]; omega)
    have h3 : snprintf BUF_SIZE ("ERROR".toList ++ (" [".toList ++ name ++ " ".toList ++
        p.strerror err ++ "]".toList) ++ " ".toList ++ m ++ "\n".toList) =
        "ERROR".toList ++ (" [".toList ++ name ++ " ".toList ++ p.strerror err ++ "]".toList) ++
          " ".toList ++ m ++ "\n".toList :=
      snprintf_of_fits _ _ (by simp [BUF_SIZE]; omega)
    simp only [stderrText_append, stderrText_flush, stderrText, h1, h2, h3]
    simp
  · intro hfit
    refine ⟨_, outputError_no_err p err flushStdout m s, ?_⟩
    simp [BUF_SIZE] at hfit
    have h1 : snprintf BUF_SIZE m = m := snprintf_of_fits _ _ (by simp [BUF_SIZE]; omega)
    have h2 : snprintf BUF_SIZE ":".toList = ":".toList := rfl
    have h3 : snprintf BUF_SIZE ("ERROR".toList ++ ":".toList ++ " ".toList ++ m ++
        "\n".toList) = "ERROR".toList ++ ":".toList ++ " ".toList ++ m ++ "\n".toList :=
      snprintf_of_fits _ _ (by simp [BUF_SIZE]; omega)
    simp only [stderrText_append, stderrText_flush, stderrText, h1, h2, h3]
    simp

/-- Witness of C1: error 2 on the Linux-like platform, then the fatal path. -/
theorem outputError_writes_line_witness :
    (∃ s1, outputError linuxPlatform true 2 true "open".toList ⟨0, []⟩ = some s1 ∧
      stderrText s1.trace =
        stderrText [] ++ ("ERROR [".toList ++ "ENOENT".toList ++ " ".toList ++
          linuxPlatform.strerror 2 ++ "] ".toList ++ "open".toList ++ "\n".toList)) ∧
    (∃ s1, outputError linuxPlatform false 2 true "open".toList ⟨0, []⟩ = some s1 ∧
      stderrText s1.trace = stderrText [] ++ ("ERROR: ".toList ++ "open".toList ++ "\n".toList)) :=
  ⟨(outputError_writes_line linuxPlatform 2 true "open".toList ⟨0, []⟩).1 "ENOENT".toList
      (by decide) (by decide),
   (outputError_writes_line linuxPlatform 2 true "open".toList ⟨0, []⟩).2 (by decide)⟩

/-! ## Termination under `EF_DUMPCORE` (C3) -/

theorem terminate_of_dumpcore (p : Platform) (useExit3 : Bool)
    (hdump : p.getenv "EF_DUMPCORE".toList ≠ none ∧ p.getenv "EF_DUMPCORE".toList ≠ some []) :
    terminate p useExit3 = Termination.abort := by
  simp only [terminate]
  rw [if_pos hdump]

theorem outputError_of_table (p : Platform) (useErr : Bool) (err : Int) (flushStdout : Bool)
    (formatted : CString) (s : State) (htab : MAX_ENAME < (p.ename.length : Int)) :
    ∃ s1, outputError p useErr err flushStdout formatted s = some s1 := by
  cases useErr
  · exact ⟨_, outputError_no_err p err flushStdout formatted s⟩
  · obtain ⟨name, hname⟩ := errName_of_table p err htab
    exact ⟨_, outputError_of_name p err flushStdout formatted s name hname⟩

/-- C3, refuted as stated: with `EF_DUMPCORE=1` in the environment `usageErr`
and `cmdLineErr` still end the process by `exit(EXIT_FAILURE)`, not `abort()`. -/
theorem usageErr_exits_despite_dumpcore :
    dumpCorePlatform.getenv "EF_DUMPCORE".toList = some "1".toList ∧
    (usageErr dumpCorePlatform "prog file".toList ⟨0, []⟩).how = Termination.exit EXIT_FAILURE ∧
    (usageErr dumpCorePlatform "prog file".toList ⟨0, []⟩).how ≠ Termination.abort ∧
    (cmdLineErr dumpCorePlatform "bad option".toList ⟨0, []⟩).how = Termination.exit EXIT_FAILURE ∧
    (cmdLineErr dumpCorePlatform "bad option".toList ⟨0, []⟩).how ≠ Termination.abort := by
  decide

/-- C3, amended: in every environment in which `EF_DUMPCORE` has a non-empty
value, `errExit`, `err_exit`, `errExitEN` and `fatal` end the process by
`abort()`, never by `exit()` or `_exit()`; `usageErr` and `cmdLineErr` do not
consult the variable and end the process by `exit(EXIT_FAILURE)`. -/
theorem dumpcore_aborts_terminate_callers (p : Platform) (errnum : Int) (m : CString) (s : State)
    (htab : MAX_ENAME < (p.ename.length : Int))
    (hdump : p.getenv "EF_DUMPCORE".toList ≠ none ∧ p.getenv "EF_DUMPCORE".toList ≠ some []) :
    (errExit p m s).map Halt.how = some Termination.abort ∧
    (err_exit p m s).map Halt.how = some Termination.abort ∧
    (errExitEN p errnum m s).map Halt.how = some Termination.abort ∧
    (fatal p m s).map Halt.how = some Termination.abort ∧
    (usageErr p m s).how = Termination.exit EXIT_FAILURE ∧
    (cmdLineErr p m s).how = Termination.exit EXIT_FAILURE := by
  have ht := terminate_of_dumpcore p true hdump
  have hf := terminate_of_dumpcore p false hdump
  obtain ⟨a, ha⟩ := outputError_of_table p true s.errno true m s htab
  obtain ⟨b, hb⟩ := outputError_of_table p true s.errno false m s htab
  obtain ⟨c, hc⟩ := outputError_of_table p true errnum true m s htab
  obtain ⟨d, hd⟩ := outputError_of_table p false 0 true m s htab
  refine ⟨?_, ?_, ?_, ?_, rfl, rfl⟩
  · simp [errExit, ha, ht]
  · simp [err_exit, hb, hf]
  · simp [errExitEN, hc, ht]
  · simp [fatal, hd, ht]

/-- Witness of the amended C3 on the platform with `EF_DUMPCORE=1`. -/
theorem dumpcore_aborts_terminate_callers_witness :
    (errExit dumpCorePlatform "open".toList ⟨2, []⟩).map Halt.how = some Termination.abort ∧
    (err_exit dumpCorePlatform "open".toList ⟨2, []⟩).map Halt.how = some Termination.abort ∧
    (errExitEN dumpCorePlatform 1 "open".toList ⟨2, []⟩).map Halt.how = some Termination.abort ∧
    (fatal dumpCorePlatform "open".toList ⟨2, []⟩).map Halt.how = some Termination.abort ∧
    (usageErr dumpCorePlatform "open".toList ⟨2, []⟩).how = Termination.exit EXIT_FAILURE ∧
    (cmdLineErr dumpCorePlatform "open".toList ⟨2, []⟩).how = Termination.exit EXIT_FAILURE :=
  dumpcore_aborts_terminate_callers dumpCorePlatform 1 "open".toList ⟨2, []⟩
    (by decide) (by decide)

/-! ## `errMsg` and the ambient `errno` (C4) -/

/-- C4: `errMsg` returns with `errno` equal to its value `e` at the call,
although the library calls in between leave `p.libcErrno e` there, and the
line it writes is annotated with the name and description of `e`. -/
theorem errMsg_preserves_errno (p : Platform) (m : CString) (s : State)
    (htab : MAX_ENAME < (p.ename.length : Int)) :
    ∃ s0 s1 name,
      outputError p true s.errno true m s = some s0 ∧ s0.errno = p.libcErrno s.errno ∧
      errMsg p m s = some s1 ∧ s1.errno = s.errno ∧
      errName p s.errno = some name ∧
      s1.trace = s.trace ++ [Event.flushStdout,
        Event.writeStderr (snprintf BUF_SIZE ("ERROR".toList ++
          snprintf BUF_SIZE (" [".toList ++ name ++ " ".toList ++ p.strerror s.errno ++
            "]".toList) ++ " ".toList ++ snprintf BUF_SIZE m ++ "\n".toList)),
        Event.flushStderr] := by
  obtain ⟨name, hname⟩ := errName_of_table p s.errno htab
  have ho := outputError_of_name p s.errno true m s name hname
  have hm : errMsg p m s = some ⟨s.errno,
      s.trace ++ [Event.flushStdout,
        Event.writeStderr (snprintf BUF_SIZE ("ERROR".toList ++
          snprintf BUF_SIZE (" [".toList ++ name ++ " ".toList ++ p.strerror s.errno ++
            "]".toList) ++ " ".toList ++ snprintf BUF_SIZE m ++ "\n".toList)),
        Event.flushStderr]⟩ := by
    simp [errMsg, ho]
  exact ⟨_, _, name, ho, rfl, hm, rfl, hname, rfl⟩

/-- Witness of C4: `errno` is 2 at the call and the library leaves 25. -/
theorem errMsg_preserves_errno_witness :
    ∃ s0 s1 name,
      outputError linuxPlatform true (2 : Int) true "open".toList ⟨2, []⟩ = some s0 ∧
      s0.errno = linuxPlatform.libcErrno 2 ∧
      errMsg linuxPlatform "open".toList ⟨2, []⟩ = some s1 ∧ s1.errno = 2 ∧
      errName linuxPlatform 2 = some name ∧
      s1.trace = [] ++ [Event.flushStdout,
        Event.writeStderr (snprintf BUF_SIZE ("ERROR".toList ++
          snprintf BUF_SIZE (" [".toList ++ name ++ " ".toList ++ linuxPlatform.strerror 2 ++
            "]".toList) ++ " ".toList ++ snprintf BUF_SIZE "open".toList ++ "\n".toList)),
        Event.flushStderr] :=
  errMsg_preserves_errno linuxPlatform "open".toList ⟨2, []⟩ (by decide)

/-! ## The error-name annotation and the bound `MAX_ENAME` (C5) -/

/-- What the guard of `outputError` does, relative to the constant
`MAX_ENAME` and whatever the length of the table: for `err` outside
`(0, MAX_ENAME]` the name is the unknown marker and the annotation is
` [?UNKNOWN? <strerror(err)>]`, the description included (stored whole when
it fits `errText`); for `err` inside that range the name is what the read of
`ename[err]` yields. The line `outputError` writes carries that annotation. -/
theorem errText_relative_to_MAX_ENAME (p : Platform) (err : Int) (flushStdout : Bool) (m : CString)
    (s : State) :
    (¬ (0 < err ∧ err ≤ MAX_ENAME) →
      (" [?UNKNOWN? ".toList ++ p.strerror err ++ "]".toList).length < BUF_SIZE →
      errName p err = some "?UNKNOWN?".toList ∧
      errText p true err = some (" [?UNKNOWN? ".toList ++ p.strerror err ++ "]".toList) ∧
      ∃ s1, outputError p true err flushStdout m s = some s1 ∧
        stderrText s1.trace = stderrText s.trace ++
          snprintf BUF_SIZE ("ERROR".toList ++
            (" [?UNKNOWN? ".toList ++ p.strerror err ++ "]".toList) ++ " ".toList ++
            snprintf BUF_SIZE m ++ "\n".toList)) ∧
    (0 < err ∧ err ≤ MAX_ENAME →
      errName p err = p.ename[err.toNat]? ∧
      ∀ name, p.ename[err.toNat]? = some name →
        (" [".toList ++ name ++ " ".toList ++ p.strerror err ++ "]".toList).length < BUF_SIZE →
        errText p true err =
          some (" [".toList ++ name ++ " ".toList ++ p.strerror err ++ "]".toList)) := by
  constructor
  · intro hout hfit
    have hname : errName p err = some "?UNKNOWN?".toList := by
      unfold errName
      rw [if_neg (by omega)]
    have hcat : " [".toList ++ "?UNKNOWN?".toList ++ " ".toList ++ p.strerror err ++
        "]".toList = " [?UNKNOWN? ".toList ++ p.strerror err ++ "]".toList := by
      simp
    have hann : snprintf BUF_SIZE (" [".toList ++ "?UNKNOWN?".toList ++ " ".toList ++
        p.strerror err ++ "]".toList) =
        " [?UNKNOWN? ".toList ++ p.strerror err ++ "]".toList := by
      rw [hcat]
      exact snprintf_of_fits _ _ hfit
    refine ⟨hname, ?_, _, outputError_of_name p err flushStdout m s _ hname, ?_⟩
    · simp only [errText, hname, if_true, Option.bind_eq_bind, Option.some_bind, hann]
      rfl
    · simp only [stderrText_append, stderrText_flush, stderrText, hann]
      simp
  · intro hin
    have hname : errName p err = p.ename[err.toNat]? := by
      unfold errName
      rw [if_pos (by omega)]
    refine ⟨hname, ?_⟩
    intro name hentry hfit
    rw [hentry] at hname
    simp only [errText, hname, if_true, Option.bind_eq_bind, Option.some_bind,
      snprintf_of_fits _ _ hfit]
    rfl

/-- The guard at error 0 and error 2 on the Linux-like platform. -/
theorem errText_relative_to_MAX_ENAME_witness :
    (errName linuxPlatform 0 = some "?UNKNOWN?".toList ∧
      errText linuxPlatform true 0 =
        some (" [?UNKNOWN? ".toList ++ linuxPlatform.strerror 0 ++ "]".toList) ∧
      ∃ s1, outputError linuxPlatform true 0 true "open".toList ⟨0, []⟩ = some s1 ∧
        stderrText s1.trace = stderrText [] ++
          snprintf BUF_SIZE ("ERROR".toList ++
            (" [?UNKNOWN? ".toList ++ linuxPlatform.strerror 0 ++ "]".toList) ++ " ".toList ++
            snprintf BUF_SIZE "open".toList ++ "\n".toList)) ∧
    (errName linuxPlatform 2 = linuxPlatform.ename[(2 : Int).toNat]? ∧
      errText linuxPlatform true 2 =
        some (" [".toList ++ "ENOENT".toList ++ " ".toList ++ linuxPlatform.strerror 2 ++
          "]".toList)) :=
  ⟨(errText_relative_to_MAX_ENAME linuxPlatform 0 true "open".toList ⟨0, []⟩).1
      (by decide) (by decide),
   ((errText_relative_to_MAX_ENAME linuxPlatform 2 true "open".toList ⟨0, []⟩).2 (by decide)).1,
   ((errText_relative_to_MAX_ENAME linuxPlatform 2 true "open".toList ⟨0, []⟩).2 (by decide)).2
     "ENOENT".toList (by decide) (by decide)⟩

set_option maxRecDepth 100000 in
/-- C5, where the code departs from it: the guard compares `err` with the
constant `MAX_ENAME = 100` and not with the size of the table. With the
134-entry Linux table, error 101 lies inside the table, whose entry is
`ENETUNREACH`, yet the name is the unknown marker and `errExitEN` writes
`ERROR [?UNKNOWN? Network is unreachable] connect`; with a table of entries
0 to 50, error 60 lies outside the table, yet the guard lets `ename[60]` be
read, outside the array, instead of giving the unknown marker. -/
theorem errName_bound_is_not_table_size :
    linuxTablePlatform.ename.length = 134 ∧
    linuxTablePlatform.ename[101]? = some "ENETUNREACH".toList ∧
    errName linuxTablePlatform 101 = some "?UNKNOWN?".toList ∧
    errName linuxTablePlatform 101 ≠ linuxTablePlatform.ename[101]? ∧
    errText linuxTablePlatform true 101 =
      some " [?UNKNOWN? Network is unreachable]".toList ∧
    (errExitEN linuxTablePlatform 101 "connect".toList ⟨0, []⟩).map
        (fun h => stderrText h.trace) =
      some "ERROR [?UNKNOWN? Network is unreachable] connect\n".toList ∧
    errName linuxTablePlatform 100 = some "ENETDOWN".toList ∧
    shortTablePlatform.ename.length = 51 ∧
    shortTablePlatform.ename[60]? = none ∧
    errName shortTablePlatform 60 = none ∧
    errName shortTablePlatform 60 ≠ some "?UNKNOWN?".toList ∧
    outputError shortTablePlatform true 60 true "read".toList ⟨0, []⟩ = none := by
  refine ⟨?_, ?_, ?_, ?_, ?_, ?_, ?_, ?_, ?_, ?_, ?_, ?_⟩ <;> decide

/-! ## Termination without `EF_DUMPCORE` (C9) -/

theorem terminate_of_no_dumpcore (p : Platform) (useExit3 : Bool)
    (hno : p.getenv "EF_DUMPCORE".toList = none ∨ p.getenv "EF_DUMPCORE".toList = some []) :
    terminate p useExit3 =
      if useExit3 then Termination.exit EXIT_FAILURE else Termination._exit EXIT_FAILURE := by
  simp only [terminate]
  rw [if_neg (by tauto)]

/-- C9: when `EF_DUMPCORE` is unset or empty every terminating operation ends
the process with the non-zero status `EXIT_FAILURE`: `errExit`, `errExitEN`,
`fatal`, `usageErr` and `cmdLineErr` through `exit()`, and `err_exit` alone
through `_exit()`. -/
theorem no_dumpcore_exit_failure (p : Platform) (errnum : Int) (m : CString) (s : State)
    (htab : MAX_ENAME < (p.ename.length : Int))
    (hno : p.getenv "EF_DUMPCORE".toList = none ∨ p.getenv "EF_DUMPCORE".toList = some []) :
    EXIT_FAILURE ≠ 0 ∧
    (errExit p m s).map Halt.how = some (Termination.exit EXIT_FAILURE) ∧
    (errExitEN p errnum m s).map Halt.how = some (Termination.exit EXIT_FAILURE) ∧
    (fatal p m s).map Halt.how = some (Termination.exit EXIT_FAILURE) ∧
    (usageErr p m s).how = Termination.exit EXIT_FAILURE ∧
    (cmdLineErr p m s).how = Termination.exit EXIT_FAILURE ∧
    (err_exit p m s).map Halt.how = some (Termination._exit EXIT_FAILURE) := by
  have ht := terminate_of_no_dumpcore p true hno
  have hf := terminate_of_no_dumpcore p false hno
  obtain ⟨a, ha⟩ := outputError_of_table p true s.errno true m s htab
  obtain ⟨b, hb⟩ := outputError_of_table p true s.errno false m s htab
  obtain ⟨c, hc⟩ := outputError_of_table p true errnum true m s htab
  obtain ⟨d, hd⟩ := outputError_of_table p false 0 true m s htab
  refine ⟨by decide, ?_, ?_, ?_, rfl, rfl, ?_⟩
  · simp [errExit, ha, ht]
  · simp [errExitEN, hc, ht]
  · simp [fatal, hd, ht]
  · simp [err_exit, hb, hf]

/-- Witness of C9 on the Linux-like platform, whose environment is empty. -/
theorem no_dumpcore_exit_failure_witness :
    EXIT_FAILURE ≠ 0 ∧
    (errExit linuxPlatform "open".toList ⟨2, []⟩).map Halt.how =
      some (Termination.exit EXIT_FAILURE) ∧
    (errExitEN linuxPlatform 1 "open".toList ⟨2, []⟩).map Halt.how =
      some (Termination.exit EXIT_FAILURE) ∧
    (fatal linuxPlatform "open".toList ⟨2, []⟩).map Halt.how =
      some (Termination.exit EXIT_FAILURE) ∧
    (usageErr linuxPlatform "open".toList ⟨2, []⟩).how = Termination.exit EXIT_FAILURE ∧
    (cmdLineErr linuxPlatform "open".toList ⟨2, []⟩).how = Termination.exit EXIT_FAILURE ∧
    (err_exit linuxPlatform "open".toList ⟨2, []⟩).map Halt.how =
      some (Termination._exit EXIT_FAILURE) :=
  no_dumpcore_exit_failure linuxPlatform 1 "open".toList ⟨2, []⟩ (by decide) (by decide)

/-! ## The validation sequence of `getNum` (C2) -/

theorem getNum_eq_validate (fname : CString) (arg : Option CString) (flags : Nat)
    (name : Option CString) : getNum fname arg flags name = validate fname arg flags name := by
  cases arg with
  | none => simp [getNum, validate, firstViolated, checkOrder, violates, checkMsg]
  | some a =>
    by_cases ha : a = []
    · simp [getNum, validate, firstViolated, checkOrder, violates, checkMsg, ha]
    · have hne : (decide (some a = none ∨ some a = some [])) = false := by simp [ha]
      simp only [getNum, validate, firstViolated, checkOrder, violates, convert, List.find?,
        Option.getD_some, ha, if_false, hne]
      by_cases h1 : (strtol a (getBase flags) 0).errno ≠ 0
      · simp [h1, checkMsg]
      by_cases h2 : (strtol a (getBase flags) 0).endptr ≠ []
      · simp [h1, h2, checkMsg]
      by_cases h3 : flags &&& GN_NONNEG ≠ 0 ∧ (strtol a (getBase flags) 0).res < 0
      · simp [h1, h2, h3, checkMsg]
      by_cases h4 : flags &&& GN_GT_0 ≠ 0 ∧ (strtol a (getBase flags) 0).res ≤ 0
      · simp [h1, h2, h3, h4, checkMsg]
      · simp [h1, h2, h3, h4]

theorem violates_of_firstViolated_none (arg : Option CString) (flags : Nat)
    (h : firstViolated arg flags = none) (c : Check) : violates arg flags c = false := by
  unfold firstViolated at h
  rw [List.find?_eq_none] at h
  have hc : c ∈ checkOrder := by cases c <;> simp [checkOrder]
  simpa using h c hc

/-- C2: `getNum` is the validation sequence: it reports the diagnostic of the
first check, in the order null/empty, conversion error, trailing characters,
negative with `GN_NONNEG`, non-positive with `GN_GT_0`, that the input
violates, and returns the converted value only when no check is violated. A
negative value under both sign flags reports "negative value not allowed"; an
overflowing number followed by junk reports the conversion failure. -/
theorem getNum_first_failure_wins (fname : CString) (arg : Option CString) (flags : Nat)
    (name : Option CString) :
    getNum fname arg flags name = validate fname arg flags name ∧
    (∀ c, firstViolated arg flags = some c →
      getNum fname arg flags name = Except.error (gnFail fname (checkMsg c) arg name)) ∧
    (∀ v, getNum fname arg flags name = Except.ok v →
      v = (convert arg flags).res ∧ ∀ c, violates arg flags c = false) ∧
    ((∀ c, violates arg flags c = false) →
      getNum fname arg flags name = Except.ok (convert arg flags).res) ∧
    getNum fname (some "-5".toList) (GN_NONNEG ||| GN_GT_0) name =
      Except.error (gnFail fname "negative value not allowed".toList (some "-5".toList) name) ∧
    getNum fname (some "99999999999999999999x".toList) 0 name =
      Except.error (gnFail fname "strtol() failed".toList
        (some "99999999999999999999x".toList) name) := by
  refine ⟨getNum_eq_validate fname arg flags name, ?_, ?_, ?_, rfl, rfl⟩
  · intro c hc
    rw [getNum_eq_validate]
    simp [validate, hc]
  · intro v hv
    rw [getNum_eq_validate] at hv
    unfold validate at hv
    cases hfv : firstViolated arg flags with
    | some c => simp [hfv] at hv
    | none =>
      simp only [hfv, Except.ok.injEq] at hv
      exact ⟨hv.symm, violates_of_firstViolated_none arg flags hfv⟩
  · intro hall
    rw [getNum_eq_validate]
    have hfv : firstViolated arg flags = none := by
      unfold firstViolated
      rw [List.find?_eq_none]
      intro c _
      simp [hall c]
    simp [validate, hfv]

/-- Witness of C2: "42x" violates the trailing-characters check first, and
"42" violates no check. -/
theorem getNum_first_failure_wins_witness :
    getNum "getLong".toList (some "42x".toList) 0 none =
      Except.error (gnFail "getLong".toList (checkMsg Check.trailing) (some "42x".toList) none) ∧
    ((42 : Int) = (convert (some "42".toList) 0).res ∧
      ∀ c, violates (some "42".toList) 0 c = false) :=
  ⟨(getNum_first_failure_wins "getLong".toList (some "42x".toList) 0 none).2.1
      Check.trailing (by decide),
   (getNum_first_failure_wins "getLong".toList (some "42".toList) 0 none).2.2.1 42 rfl⟩

/-! ## Returned values (C6, C7) -/

theorem getNum_ok (fname : CString) (arg : Option CString) (flags : Nat)
    (name : Option CString) (v : Int) (h : getNum fname arg flags name = Except.ok v) :
    v = (convert arg flags).res ∧ (convert arg flags).errno = 0 ∧
      (convert arg flags).endptr = [] ∧
      (flags &&& GN_NONNEG ≠ 0 → 0 ≤ v) ∧ (flags &&& GN_GT_0 ≠ 0 → 0 < v) := by
  rw [getNum_eq_validate] at h
  unfold validate at h
  cases hfv : firstViolated arg flags with
  | some c => simp [hfv] at h
  | none =>
    simp only [hfv, Except.ok.injEq] at h
    have hv := violates_of_firstViolated_none arg flags hfv
    have h2 := hv Check.conversion
    have h3 := hv Check.trailing
    have h4 := hv Check.negative
    have h5 := hv Check.notPositive
    simp only [violates, decide_eq_false_iff_not, not_and, not_not, not_lt, not_le] at h2 h3 h4 h5
    subst h
    exact ⟨rfl, h2, h3, h4, h5⟩

theorem castInt_of_range (v : Int) (hlo : INT_MIN ≤ v) (hhi : v ≤ INT_MAX) : castInt v = v := by
  unfold INT_MIN at hlo
  unfold INT_MAX at hhi
  unfold castInt
  omega

theorem getInt_of_getNum_ok (arg : Option CString) (flags : Nat) (name : Option CString)
    (v : Int) (h : getNum "getInt".toList arg flags name = Except.ok v) :
    getInt arg flags name =
      if v > INT_MAX ∨ v < INT_MIN then
        Except.error (gnFail "getInt".toList "integer out of range".toList arg name)
      else Except.ok (castInt v) := by
  simp only [getInt, h]

theorem getInt_ok (arg : Option CString) (flags : Nat) (name : Option CString) (w : Int)
    (h : getInt arg flags name = Except.ok w) :
    getNum "getInt".toList arg flags name = Except.ok w ∧ INT_MIN ≤ w ∧ w ≤ INT_MAX := by
  cases hn : getNum "getInt".toList arg flags name with
  | error e =>
    simp only [getInt, hn] at h
    exact nomatch h
  | ok v =>
    rw [getInt_of_getNum_ok arg flags name v hn] at h
    split_ifs at h with hr
    simp only [Except.ok.injEq] at h
    have hlo : INT_MIN ≤ v := by omega
    have hhi : v ≤ INT_MAX := by omega
    rw [castInt_of_range v hlo hhi] at h
    subst h
    exact ⟨rfl, hlo, hhi⟩

theorem gnFail_msg_injective (fname : CString) (arg name : Option CString) (m1 m2 : CString)
    (h : gnFail fname m1 arg name = gnFail fname m2 arg name) : m1 = m2 := by
  have ht := congrArg Halt.trace h
  simp only [gnFail] at ht
  have h1 := List.append_cancel_right ht
  have h2 := List.append_cancel_left h1
  simpa using h2

/-- C7: a value `v` returned by `getLong` or `getInt` satisfies the sign
constraints of `flags`: `v >= 0` under `GN_NONNEG` and `v > 0` under
`GN_GT_0`; "-5" under `GN_NONNEG` and "0" under `GN_GT_0` are never
returned but end the process. -/
theorem returned_value_meets_sign_flags (arg : Option CString) (flags : Nat)
    (name : Option CString) (v : Int) :
    ((getLong arg flags name = Except.ok v ∨ getInt arg flags name = Except.ok v) →
      (flags &&& GN_NONNEG ≠ 0 → 0 ≤ v) ∧ (flags &&& GN_GT_0 ≠ 0 → 0 < v)) ∧
    getLong (some "-5".toList) GN_NONNEG name ≠ Except.ok v ∧
    getInt (some "-5".toList) GN_NONNEG name ≠ Except.ok v ∧
    getLong (some "0".toList) GN_GT_0 name ≠ Except.ok v ∧
    getInt (some "0".toList) GN_GT_0 name ≠ Except.ok v ∧
    getLong (some "-5".toList) GN_NONNEG name = Except.error (gnFail "getLong".toList
      "negative value not allowed".toList (some "-5".toList) name) ∧
    getInt (some "0".toList) GN_GT_0 name = Except.error (gnFail "getInt".toList
      "value must be > 0".toList (some "0".toList) name) := by
  have e1 : getLong (some "-5".toList) GN_NONNEG name = Except.error (gnFail "getLong".toList
      "negative value not allowed".toList (some "-5".toList) name) := rfl
  have e2 : getInt (some "-5".toList) GN_NONNEG name = Except.error (gnFail "getInt".toList
      "negative value not allowed".toList (some "-5".toList) name) := rfl
  have e3 : getLong (some "0".toList) GN_GT_0 name = Except.error (gnFail "getLong".toList
      "value must be > 0".toList (some "0".toList) name) := rfl
  have e4 : getInt (some "0".toList) GN_GT_0 name = Except.error (gnFail "getInt".toList
      "value must be > 0".toList (some "0".toList) name) := rfl
  refine ⟨?_, ?_, ?_, ?_, ?_, e1, e4⟩
  · rintro (h | h)
    · exact (getNum_ok _ arg flags name v h).2.2.2
    · exact (getNum_ok _ arg flags name v (getInt_ok arg flags name v h).1).2.2.2
  · rw [e1]; exact fun h => nomatch h
  · rw [e2]; exact fun h => nomatch h
  · rw [e3]; exact fun h => nomatch h
  · rw [e4]; exact fun h => nomatch h

/-- Witness of C7: "7" under both sign flags is returned, and is positive. -/
theorem returned_value_meets_sign_flags_witness :
    getLong (some "7".toList) (GN_NONNEG ||| GN_GT_0) none = Except.ok 7 ∧
    ((GN_NONNEG ||| GN_GT_0) &&& GN_NONNEG ≠ 0 → (0 : Int) ≤ 7) ∧
    ((GN_NONNEG ||| GN_GT_0) &&& GN_GT_0 ≠ 0 → (0 : Int) < 7) :=
  ⟨rfl, (returned_value_meets_sign_flags (some "7".toList) (GN_NONNEG ||| GN_GT_0) none 7).1
    (Or.inl rfl)⟩

theorem getNum_ok_any_fname (f1 f2 : CString) (arg : Option CString) (flags : Nat)
    (name : Option CString) (v : Int) (h : getNum f1 arg flags name = Except.ok v) :
    getNum f2 arg flags name = Except.ok v := by
  rw [getNum_eq_validate] at h ⊢
  unfold validate at h ⊢
  cases hfv : firstViolated arg flags with
  | some c => simp [hfv] at h
  | none => simpa [hfv] using h

theorem getNum_error_any_fname (f1 f2 : CString) (arg : Option CString) (flags : Nat)
    (name : Option CString) (h : Halt) (he : getNum f1 arg flags name = Except.error h) :
    ∃ msg, h = gnFail f1 msg arg name ∧
      getNum f2 arg flags name = Except.error (gnFail f2 msg arg name) := by
  rw [getNum_eq_validate] at he ⊢
  unfold validate at he ⊢
  cases hfv : firstViolated arg flags with
  | none => simp [hfv] at he
  | some c =>
    simp only [hfv, Except.error.injEq] at he
    exact ⟨checkMsg c, he.symm, rfl⟩

/-- C6: `getInt` refines `getLong` to the range of `int`. When `getLong` ends
the process with a message, `getInt` ends it with the same message; when
`getLong` returns `v` within `INT_MIN..INT_MAX`, `getInt` returns `v`
unchanged; when `v` is outside that range, as for "2147483648", `getInt` ends
the process with "integer out of range". Every value `getInt` returns is the
value `getLong` returns, so the cast never wraps or truncates. -/
theorem getInt_refines_getLong (arg : Option CString) (flags : Nat) (name : Option CString) :
    (∀ h, getLong arg flags name = Except.error h →
      ∃ msg, h = gnFail "getLong".toList msg arg name ∧
        getInt arg flags name = Except.error (gnFail "getInt".toList msg arg name)) ∧
    (∀ msg, getLong arg flags name = Except.error (gnFail "getLong".toList msg arg name) →
      getInt arg flags name = Except.error (gnFail "getInt".toList msg arg name)) ∧
    (∀ v, getLong arg flags name = Except.ok v → INT_MIN ≤ v → v ≤ INT_MAX →
      getInt arg flags name = Except.ok v) ∧
    (∀ v, getLong arg flags name = Except.ok v → (v < INT_MIN ∨ INT_MAX < v) →
      getInt arg flags name =
        Except.error (gnFail "getInt".toList "integer out of range".toList arg name)) ∧
    (∀ w, getInt arg flags name = Except.ok w →
      getLong arg flags name = Except.ok w ∧ INT_MIN ≤ w ∧ w ≤ INT_MAX) ∧
    getLong (some "2147483648".toList) 0 name = Except.ok 2147483648 ∧
    getInt (some "2147483648".toList) 0 name =
      Except.error (gnFail "getInt".toList "integer out of range".toList
        (some "2147483648".toList) name) := by
  have key : ∀ h, getLong arg flags name = Except.error h →
      ∃ msg, h = gnFail "getLong".toList msg arg name ∧
        getInt arg flags name = Except.error (gnFail "getInt".toList msg arg name) := by
    intro h he
    obtain ⟨msg, hmsg, hint⟩ :=
      getNum_error_any_fname "getLong".toList "getInt".toList arg flags name h he
    refine ⟨msg, hmsg, ?_⟩
    simp only [getInt, hint]
  refine ⟨key, ?_, ?_, ?_, ?_, rfl, rfl⟩
  · intro msg he
    obtain ⟨msg1, hmsg, hint⟩ := key _ he
    rw [gnFail_msg_injective _ arg name msg msg1 hmsg]
    exact hint
  · intro v hv hlo hhi
    have hn := getNum_ok_any_fname "getLong".toList "getInt".toList arg flags name v hv
    rw [getInt_of_getNum_ok arg flags name v hn, if_neg (by omega),
      castInt_of_range v hlo hhi]
  · intro v hv hout
    have hn := getNum_ok_any_fname "getLong".toList "getInt".toList arg flags name v hv
    rw [getInt_of_getNum_ok arg flags name v hn, if_pos (by omega)]
  · intro w hw
    obtain ⟨hn, hlo, hhi⟩ := getInt_ok arg flags name w hw
    exact ⟨getNum_ok_any_fname "getInt".toList "getLong".toList arg flags name w hn, hlo, hhi⟩

/-- Witness of C6: "42x" fails in both with the same message, "-2147483648"
is returned by both, and every value `getInt` returns for "42" is the one
`getLong` returns. -/
theorem getInt_refines_getLong_witness :
    getInt (some "42x".toList) 0 none = Except.error (gnFail "getInt".toList
      "nonnumeric characters".toList (some "42x".toList) none) ∧
    getInt (some "-2147483648".toList) 0 none = Except.ok (-2147483648) ∧
    getInt (some "21474836480".toList) 0 none = Except.error (gnFail "getInt".toList
      "integer out of range".toList (some "21474836480".toList) none) ∧
    (getLong (some "42".toList) 0 none = Except.ok 42 ∧ INT_MIN ≤ 42 ∧ (42 : Int) ≤ INT_MAX) :=
  ⟨(getInt_refines_getLong (some "42x".toList) 0 none).2.1 "nonnumeric characters".toList rfl,
   (getInt_refines_getLong (some "-2147483648".toList) 0 none).2.2.1 (-2147483648) rfl
     (by decide) (by decide),
   (getInt_refines_getLong (some "21474836480".toList) 0 none).2.2.2.1 21474836480 rfl
     (by decide),
   (getInt_refines_getLong (some "42".toList) 0 none).2.2.2.2.1 42 rfl⟩

/-! ## The conversion failure diagnostic (C10) -/

/-- C10, refuted as stated: for "9223372036854775808", one more than
`LONG_MAX`, `strtol` reports `ERANGE` and the diagnostic printed is
"strtol() failed"; the text "conversion failed" is not written. -/
theorem getLong_overflow_prints_strtol_failed :
    (strtol "9223372036854775808".toList 10 0).errno = ERANGE ∧
    getLong (some "9223372036854775808".toList) 0 none =
      Except.error (gnFail "getLong".toList "strtol() failed".toList
        (some "9223372036854775808".toList) none) ∧
    stderrText (gnFail "getLong".toList "strtol() failed".toList
        (some "9223372036854775808".toList) none).trace =
      "getLong error: strtol() failed\n offending text: 9223372036854775808\n".toList ∧
    getLong (some "9223372036854775808".toList) 0 none ≠
      Except.error (gnFail "getLong".toList "conversion failed".toList
        (some "9223372036854775808".toList) none) ∧
    ¬ ("conversion failed".toList <:+:
      stderrText (gnFail "getLong".toList "strtol() failed".toList
        (some "9223372036854775808".toList) none).trace) := by
  have e : getLong (some "9223372036854775808".toList) 0 none =
      Except.error (gnFail "getLong".toList "strtol() failed".toList
        (some "9223372036854775808".toList) none) := rfl
  refine ⟨by decide, e, by decide, ?_, by decide⟩
  rw [e]
  intro h
  have hm := gnFail_msg_injective _ _ _ _ _ (Except.error.inj h)
  exact absurd hm (by decide)

/-- C10, amended: for every non-empty argument on which `strtol` leaves
`errno` non-zero, the validator ends the process with the failure status and
the diagnostic message it prints is "strtol() failed". -/
theorem getNum_conversion_error (fname a : CString) (flags : Nat) (name : Option CString)
    (hne : a ≠ []) (herr : (strtol a (getBase flags) 0).errno ≠ 0) :
    getNum fname (some a) flags name =
      Except.error (gnFail fname "strtol() failed".toList (some a) name) ∧
    (gnFail fname "strtol() failed".toList (some a) name).how = Termination.exit EXIT_FAILURE ∧
    stderrText (gnFail fname "strtol() failed".toList (some a) name).trace =
      fname ++ " error".toList ++
        (match name with
          | some n => " (in ".toList ++ n ++ ")".toList
          | none => []) ++
        ": strtol() failed\n".toList ++ " offending text: ".toList ++ a ++ "\n".toList := by
  refine ⟨?_, rfl, ?_⟩
  · simp only [getNum, hne, if_false, herr, ne_eq, not_false_eq_true, if_true]
  · cases a with
    | nil => exact absurd rfl hne
    | cons c cs => cases name <;> simp [gnFail, stderrText, stderrText_append]

/-- Witness of the amended C10: a decimal text one more than `LONG_MAX`. -/
theorem getNum_conversion_error_witness :
    getNum "getInt".toList (some "9223372036854775808".toList) 0 (some "count".toList) =
      Except.error (gnFail "getInt".toList "strtol() failed".toList
        (some "9223372036854775808".toList) (some "count".toList)) ∧
    (gnFail "getInt".toList "strtol() failed".toList (some "9223372036854775808".toList)
      (some "count".toList)).how = Termination.exit EXIT_FAILURE ∧
    stderrText (gnFail "getInt".toList "strtol() failed".toList
        (some "9223372036854775808".toList) (some "count".toList)).trace =
      "getInt".toList ++ " error".toList ++
        (match some "count".toList with
          | some n => " (in ".toList ++ n ++ ")".toList
          | none => []) ++
        ": strtol() failed\n".toList ++ " offending text: ".toList ++
        "9223372036854775808".toList ++ "\n".toList :=
  getNum_conversion_error "getInt".toList "9223372036854775808".toList 0 (some "count".toList)
    (by decide) (by decide)

/-! ## The decimal round trip (C8) -/

theorem foldl_reverse_digits (L : List Nat) :
    List.foldl (fun a d => a * 10 + d) 0 L.reverse = Nat.ofDigits 10 L := by
  induction L with
  | nil => rfl
  | cons d ds ih =>
    simp only [List.reverse_cons, List.foldl_append, List.foldl_cons, List.foldl_nil, ih,
      Nat.ofDigits_cons]
    omega

theorem toDigitsCore_eq_digits (fuel : Nat) : ∀ (n : Nat) (ds : List Char), 0 < n → n < fuel →
    Nat.toDigitsCore 10 fuel n ds = (Nat.digits 10 n).reverse.map Nat.digitChar ++ ds := by
  induction fuel with
  | zero => intro n ds _ h; omega
  | succ fuel ih =>
    intro n ds hpos hlt
    have hd : Nat.digits 10 n = (n % 10) :: Nat.digits 10 (n / 10) :=
      Nat.digits_def' (by decide) hpos
    simp only [Nat.toDigitsCore]
    by_cases h0 : n / 10 = 0
    · simp [h0, hd]
    · have hlt2 : n / 10 < fuel := by omega
      rw [if_neg h0, ih (n / 10) _ (by omega) hlt2, hd]
      simp

theorem natDecimal_digits (n : Nat) :
    ∃ ds : List Nat, ds ≠ [] ∧ (∀ d ∈ ds, d < 10) ∧ natDecimal n = ds.map Nat.digitChar ∧
      List.foldl (fun a d => a * 10 + d) 0 ds = n := by
  by_cases h0 : n = 0
  · subst h0
    exact ⟨[0], by simp, by simp, rfl, rfl⟩
  · refine ⟨(Nat.digits 10 n).reverse, ?_, ?_, ?_, ?_⟩
    · simpa [Nat.digits_ne_nil_iff_ne_zero] using h0
    · intro d hd
      exact Nat.digits_lt_base (by decide) (List.mem_reverse.mp hd)
    · unfold natDecimal Nat.toDigits
      rw [toDigitsCore_eq_digits (n + 1) n [] (by omega) (by omega)]
      simp
    · rw [foldl_reverse_digits, Nat.ofDigits_digits]

theorem digitChar_facts (d : Nat) (h : d < 10) (t : CString) :
    isspace (Nat.digitChar d) = false ∧
    readSign (Nat.digitChar d :: t) = (false, Nat.digitChar d :: t) ∧
    digitIn 10 (Nat.digitChar d) = some d := by
  interval_cases d <;> exact ⟨by decide, by rfl, by decide⟩

theorem scanDigits_digitChars (ds : List Nat) (hlt : ∀ d ∈ ds, d < 10) (k : Nat) :
    scanDigits 10 (ds.map Nat.digitChar) k = (List.foldl (fun a d => a * 10 + d) k ds, []) := by
  induction ds generalizing k with
  | nil => rfl
  | cons d ds ih =>
    have hd := (digitChar_facts d (hlt d (by simp)) []).2.2
    simp only [List.map_cons, scanDigits, hd, List.foldl_cons]
    exact ih (fun x hx => hlt x (by simp [hx])) _

theorem strtol_res_range (nptr : CString) (base : Nat) (errno : Int) :
    LONG_MIN ≤ (strtol nptr base errno).res ∧ (strtol nptr base errno).res ≤ LONG_MAX := by
  unfold strtol
  simp only [LONG_MIN, LONG_MAX]
  split_ifs <;> simp only <;> omega

theorem strtol_decimalText (n : Int) (hlo : LONG_MIN ≤ n) (hhi : n ≤ LONG_MAX) :
    strtol (decimalText n) 10 0 = { res := n, endptr := [], errno := 0 } := by
  obtain ⟨ds, hne, hlt, hds, hval⟩ := natDecimal_digits n.natAbs
  cases ds with
  | nil => exact absurd rfl hne
  | cons d ds =>
    have hf := digitChar_facts d (hlt d (by simp)) (ds.map Nat.digitChar)
    have hscan := scanDigits_digitChars (d :: ds) hlt 0
    rw [hval] at hscan
    simp only [List.map_cons] at hscan hds
    have hb : readBase 10 (Nat.digitChar d :: ds.map Nat.digitChar) =
        (10, Nat.digitChar d :: ds.map Nat.digitChar) := by
      simp [readBase]
    unfold decimalText
    by_cases hneg : n < 0
    · have hs : readSign (skipSpace ('-' :: Nat.digitChar d :: ds.map Nat.digitChar)) =
          (true, Nat.digitChar d :: ds.map Nat.digitChar) := rfl
      have hv : -((n.natAbs : Nat) : Int) = n := by omega
      simp only [hneg, if_true, hds, strtol, hs, hb, hscan, List.length_nil, List.length_cons,
        hv]
      rw [if_neg (by omega), if_neg (by omega), if_neg (by omega)]
    · have hs : readSign (skipSpace (Nat.digitChar d :: ds.map Nat.digitChar)) =
          (false, Nat.digitChar d :: ds.map Nat.digitChar) := by
        simp only [skipSpace, hf.1]
        exact hf.2.1
      have hv : ((n.natAbs : Nat) : Int) = n := by omega
      simp only [hneg, if_false, hds, strtol, hs, hb, hscan, List.length_nil, List.length_cons,
        hv, Bool.false_eq_true]
      rw [if_neg (by omega), if_neg (by omega), if_neg (by omega)]

theorem getNum_decimalText (fname : CString) (name : Option CString) (n : Int)
    (hlo : LONG_MIN ≤ n) (hhi : n ≤ LONG_MAX) :
    getNum fname (some (decimalText n)) 0 name = Except.ok n := by
  have hne : decimalText n ≠ [] := by
    obtain ⟨ds, hne, _, hds, _⟩ := natDecimal_digits n.natAbs
    unfold decimalText
    split
    · simp
    · rw [hds]
      simpa using hne
  have hbase : getBase 0 = 10 := rfl
  simp [getNum, hne, hbase, strtol_decimalText n hlo hhi]

/-- C8: the decimal round trip. For every `n` in the range of `long`,
`getLong` on the decimal text of `n` with flags 0 returns `n`; hence whenever
a text validates to `n`, the decimal text of `n` validates to `n` again; and
likewise for `getInt` with `n` in the range of `int`. -/
theorem decimal_round_trip (n : Int) (name : Option CString) :
    (LONG_MIN ≤ n → n ≤ LONG_MAX → getLong (some (decimalText n)) 0 name = Except.ok n) ∧
    (∀ text name1, getLong text 0 name1 = Except.ok n →
      getLong (some (decimalText n)) 0 name = Except.ok n) ∧
    (INT_MIN ≤ n → n ≤ INT_MAX → getInt (some (decimalText n)) 0 name = Except.ok n) ∧
    (∀ text name1, getInt text 0 name1 = Except.ok n →
      getInt (some (decimalText n)) 0 name = Except.ok n) := by
  have hint : INT_MIN ≤ n → n ≤ INT_MAX → getInt (some (decimalText n)) 0 name = Except.ok n := by
    intro hlo hhi
    have hlo1 : LONG_MIN ≤ n := by unfold LONG_MIN; unfold INT_MIN at hlo; omega
    have hhi1 : n ≤ LONG_MAX := by unfold LONG_MAX; unfold INT_MAX at hhi; omega
    rw [getInt_of_getNum_ok _ 0 name n (getNum_decimalText _ name n hlo1 hhi1),
      if_neg (by omega), castInt_of_range n hlo hhi]
  refine ⟨fun hlo hhi => getNum_decimalText _ name n hlo hhi, ?_, hint, ?_⟩
  · intro text name1 h
    have hv := (getNum_ok _ text 0 name1 n h).1
    have hr := strtol_res_range (text.getD []) (getBase 0) 0
    unfold convert at hv
    rw [← hv] at hr
    exact getNum_decimalText _ name n hr.1 hr.2
  · intro text name1 h
    obtain ⟨_, hlo, hhi⟩ := getInt_ok text 0 name1 n h
    exact hint hlo hhi

/-- Witness of C8: `LONG_MIN`, the text "+007" whose value is 7, and
`INT_MAX`. -/
theorem decimal_round_trip_witness :
    getLong (some (decimalText (-9223372036854775808))) 0 none =
      Except.ok (-9223372036854775808) ∧
    getLong (some (decimalText 7)) 0 none = Except.ok 7 ∧
    getInt (some (decimalText 2147483647)) 0 none = Except.ok 2147483647 ∧
    getInt (some (decimalText 7)) 0 none = Except.ok 7 :=
  ⟨(decimal_round_trip (-9223372036854775808) none).1 (by decide) (by decide),
   (decimal_round_trip 7 none).2.1 (some "+007".toList) none rfl,
   (decimal_round_trip 2147483647 none).2.2.1 (by decide) (by decide),
   (decimal_round_trip 7 none).2.2.2 (some "+007".toList) none rfl⟩

/-! ## The usage diagnostics (C11) -/

/-- C11: `usageErr` appends to standard error exactly `Usage: ` followed by
the whole formatted text, and `cmdLineErr` exactly
`Command-line usage error: ` followed by it: no `ERROR`, no annotation, no
added newline, no cut at 500 bytes. Each then ends the process with the
non-zero status `EXIT_FAILURE`. -/
theorem usage_errors_write_raw_text (p : Platform) (m : CString) (s : State) :
    stderrText (usageErr p m s).trace = stderrText s.trace ++ ("Usage: ".toList ++ m) ∧
    (usageErr p m s).how = Termination.exit EXIT_FAILURE ∧
    stderrText (cmdLineErr p m s).trace =
      stderrText s.trace ++ ("Command-line usage error: ".toList ++ m) ∧
    (cmdLineErr p m s).how = Termination.exit EXIT_FAILURE ∧
    EXIT_FAILURE ≠ 0 := by
  refine ⟨?_, rfl, ?_, rfl, by decide⟩
  · simp only [usageErr, stderrText_append, stderrText, List.append_nil]
  · simp only [cmdLineErr, stderrText_append, stderrText, List.append_nil]

/-! ## The order of the flushes (C13) -/

theorem outputError_trace (p : Platform) (useErr : Bool) (err : Int) (flushStdout : Bool)
    (formatted : CString) (s : State) (htab : MAX_ENAME < (p.ename.length : Int)) :
    ∃ buf s1, outputError p useErr err flushStdout formatted s = some s1 ∧
      s1.trace = s.trace ++ (if flushStdout then [Event.flushStdout] else []) ++
        [Event.writeStderr buf, Event.flushStderr] := by
  cases useErr
  · exact ⟨_, _, outputError_no_err p err flushStdout formatted s, rfl⟩
  · obtain ⟨name, hname⟩ := errName_of_table p err htab
    exact ⟨_, _, outputError_of_name p err flushStdout formatted s name hname, rfl⟩

/-- C13: `errMsg`, `errExit`, `errExitEN`, `fatal`, `usageErr` and
`cmdLineErr` flush standard output before they write the diagnostic to
standard error; `err_exit` does not flush standard output at all; every
operation flushes standard error after the diagnostic, as its last action on
the streams. -/
theorem flush_order (p : Platform) (errnum : Int) (m : CString) (s : State)
    (htab : MAX_ENAME < (p.ename.length : Int)) :
    (∃ buf, (errMsg p m s).map State.trace =
      some (s.trace ++ [Event.flushStdout, Event.writeStderr buf, Event.flushStderr])) ∧
    (∃ buf, (errExit p m s).map Halt.trace =
      some (s.trace ++ [Event.flushStdout, Event.writeStderr buf, Event.flushStderr])) ∧
    (∃ buf, (errExitEN p errnum m s).map Halt.trace =
      some (s.trace ++ [Event.flushStdout, Event.writeStderr buf, Event.flushStderr])) ∧
    (∃ buf, (fatal p m s).map Halt.trace =
      some (s.trace ++ [Event.flushStdout, Event.writeStderr buf, Event.flushStderr])) ∧
    (usageErr p m s).trace = s.trace ++ [Event.flushStdout,
      Event.writeStderr "Usage: ".toList, Event.writeStderr m, Event.flushStderr] ∧
    (cmdLineErr p m s).trace = s.trace ++ [Event.flushStdout,
      Event.writeStderr "Command-line usage error: ".toList, Event.writeStderr m,
      Event.flushStderr] ∧
    (∃ buf, (err_exit p m s).map Halt.trace =
      some (s.trace ++ [Event.writeStderr buf, Event.flushStderr])) := by
  obtain ⟨b1, s1, h1, t1⟩ := outputError_trace p true s.errno true m s htab
  obtain ⟨b2, s2, h2, t2⟩ := outputError_trace p true errnum true m s htab
  obtain ⟨b3, s3, h3, t3⟩ := outputError_trace p false 0 true m s htab
  obtain ⟨b4, s4, h4, t4⟩ := outputError_trace p true s.errno false m s htab
  refine ⟨⟨b1, ?_⟩, ⟨b1, ?_⟩, ⟨b2, ?_⟩, ⟨b3, ?_⟩, rfl, rfl, ⟨b4, ?_⟩⟩
  · simp [errMsg, h1, t1]
  · simp [errExit, h1, t1]
  · simp [errExitEN, h2, t2]
  · simp [fatal, h3, t3]
  · simp [err_exit, h4, t4]

/-- Witness of C13 on the Linux-like platform, from an empty trace. -/
theorem flush_order_witness :
    (∃ buf, (errMsg linuxPlatform "open".toList ⟨2, []⟩).map State.trace =
      some ([] ++ [Event.flushStdout, Event.writeStderr buf, Event.flushStderr])) ∧
    (∃ buf, (err_exit linuxPlatform "open".toList ⟨2, []⟩).map Halt.trace =
      some ([] ++ [Event.writeStderr buf, Event.flushStderr])) :=
  ⟨(flush_order linuxPlatform 1 "open".toList ⟨2, []⟩ (by decide)).1,
   (flush_order linuxPlatform 1 "open".toList ⟨2, []⟩ (by decide)).2.2.2.2.2.2⟩

/-! ## Which error code annotates the message (C15) -/

/-- C15: the line `errExitEN` writes is annotated with the caller's `errnum`
and is the same whatever the ambient `errno`; so is the line of `fatal`;
`errExit`, `err_exit` and `errMsg` write the line `errExitEN` writes for the
`errno` current at the call, which on the Linux-like platform differs between
`errno` 1 and 2. -/
theorem errExitEN_ignores_errno (p : Platform) (errnum : Int) (m : CString) (s : State) :
    (∀ e1 e2 t, errExitEN p errnum m ⟨e1, t⟩ = errExitEN p errnum m ⟨e2, t⟩) ∧
    (∀ e1 e2 t, fatal p m ⟨e1, t⟩ = fatal p m ⟨e2, t⟩) ∧
    (∀ name, errName p errnum = some name →
      (errExitEN p errnum m s).map Halt.trace = some (s.trace ++ [Event.flushStdout,
        Event.writeStderr (snprintf BUF_SIZE ("ERROR".toList ++
          snprintf BUF_SIZE (" [".toList ++ name ++ " ".toList ++ p.strerror errnum ++
            "]".toList) ++ " ".toList ++ snprintf BUF_SIZE m ++ "\n".toList)),
        Event.flushStderr])) ∧
    errExit p m s = errExitEN p s.errno m s ∧
    (err_exit p m s).map (fun h => stderrText h.trace) =
      (errExitEN p s.errno m s).map (fun h => stderrText h.trace) ∧
    (errMsg p m s).map State.trace = (errExitEN p s.errno m s).map Halt.trace ∧
    (errExit linuxPlatform "open".toList ⟨1, []⟩).map (fun h => stderrText h.trace) =
      some "ERROR [EPERM Operation not permitted] open\n".toList ∧
    (errExit linuxPlatform "open".toList ⟨2, []⟩).map (fun h => stderrText h.trace) =
      some "ERROR [ENOENT No such file or directory] open\n".toList := by
  refine ⟨?_, fun _ _ _ => rfl, ?_, rfl, ?_, ?_, by decide, by decide⟩
  · intro e1 e2 t
    cases hn : errText p true errnum <;> simp [errExitEN, outputError, hn]
  · intro name hname
    simp [errExitEN, outputError_of_name p errnum true m s name hname]
  · cases hn : errName p s.errno with
    | none => simp [err_exit, errExitEN, outputError, errText, hn]
    | some name =>
      simp [err_exit, errExitEN, outputError_of_name p s.errno _ m s name hn,
        stderrText_append, stderrText]
  · cases hn : errName p s.errno with
    | none => simp [errMsg, errExitEN, outputError, errText, hn]
    | some name =>
      simp [errMsg, errExitEN, outputError_of_name p s.errno _ m s name hn]

/-- Witness of C15: `errnum` 2 while the ambient `errno` is 1. -/
theorem errExitEN_ignores_errno_witness :
    (errExitEN linuxPlatform 2 "open".toList ⟨1, []⟩).map Halt.trace =
      some ([] ++ [Event.flushStdout,
        Event.writeStderr (snprintf BUF_SIZE ("ERROR".toList ++
          snprintf BUF_SIZE (" [".toList ++ "ENOENT".toList ++ " ".toList ++
            linuxPlatform.strerror 2 ++ "]".toList) ++ " ".toList ++
          snprintf BUF_SIZE "open".toList ++ "\n".toList)),
        Event.flushStderr]) :=
  (errExitEN_ignores_errno linuxPlatform 2 "open".toList ⟨1, []⟩).2.2.1 "ENOENT".toList
    (by decide)

/-! ## The conversion base (C16) -/

theorem and_of_base_bits (f1 f2 mask : Nat) (hmask : 0o700 &&& mask = mask)
    (h : f1 &&& 0o700 = f2 &&& 0o700) : f1 &&& mask = f2 &&& mask := by
  rw [← hmask, ← Nat.and_assoc, ← Nat.and_assoc, h]

theorem getBase_or_sign (flags sign : Nat) (h1 : sign &&& GN_ANY_BASE = 0)
    (h2 : sign &&& GN_BASE_8 = 0) (h3 : sign &&& GN_BASE_16 = 0) :
    getBase (flags ||| sign) = getBase flags := by
  simp only [getBase, Nat.and_distrib_right, h1, h2, h3, Nat.or_zero]

/-- C16: the base `getNum` converts in is a function of `flags` alone, and of
its three base bits only: 10 when none is set, 0 when `GN_ANY_BASE` is set, 8
when `GN_BASE_8` is set without `GN_ANY_BASE`, 16 when only `GN_BASE_16` is
set; adding `GN_NONNEG` or `GN_GT_0` never changes it. The conversions
`getLong` performs show the base and the precedence. -/
theorem getBase_of_flags (flags : Nat) :
    (flags &&& GN_ANY_BASE = 0 → flags &&& GN_BASE_8 = 0 → flags &&& GN_BASE_16 = 0 →
      getBase flags = 10) ∧
    (flags &&& GN_ANY_BASE ≠ 0 → getBase flags = 0) ∧
    (flags &&& GN_ANY_BASE = 0 → flags &&& GN_BASE_8 ≠ 0 → getBase flags = 8) ∧
    (flags &&& GN_ANY_BASE = 0 → flags &&& GN_BASE_8 = 0 → flags &&& GN_BASE_16 ≠ 0 →
      getBase flags = 16) ∧
    getBase (flags ||| GN_NONNEG) = getBase flags ∧
    getBase (flags ||| GN_GT_0) = getBase flags ∧
    getBase (flags ||| GN_NONNEG ||| GN_GT_0) = getBase flags ∧
    (∀ other, flags &&& 0o700 = other &&& 0o700 → getBase flags = getBase other) ∧
    (∀ arg, convert arg flags = strtol (arg.getD []) (getBase flags) 0) ∧
    getLong (some "17".toList) 0 none = Except.ok 17 ∧
    getLong (some "17".toList) GN_BASE_8 none = Except.ok 15 ∧
    getLong (some "17".toList) GN_BASE_16 none = Except.ok 23 ∧
    getLong (some "017".toList) GN_ANY_BASE none = Except.ok 15 ∧
    getLong (some "0x17".toList) (GN_ANY_BASE ||| GN_BASE_8) none = Except.ok 23 ∧
    getLong (some "17".toList) (GN_BASE_8 ||| GN_BASE_16) none = Except.ok 15 ∧
    getLong (some "17".toList) (GN_BASE_16 ||| GN_NONNEG ||| GN_GT_0) none = Except.ok 23 := by
  refine ⟨?_, ?_, ?_, ?_, ?_, ?_, ?_, ?_, fun _ => rfl, rfl, rfl, rfl, rfl, rfl, rfl, rfl⟩
  · intro h1 h2 h3
    simp [getBase, h1, h2, h3]
  · intro h1
    simp [getBase, h1]
  · intro h1 h2
    simp [getBase, h1, h2]
  · intro h1 h2 h3
    simp [getBase, h1, h2, h3]
  · exact getBase_or_sign flags GN_NONNEG (by decide) (by decide) (by decide)
  · exact getBase_or_sign flags GN_GT_0 (by decide) (by decide) (by decide)
  · rw [Nat.or_assoc]
    exact getBase_or_sign flags (GN_NONNEG ||| GN_GT_0) (by decide) (by decide) (by decide)
  · intro other h
    have a := and_of_base_bits flags other GN_ANY_BASE (by decide) h
    have b := and_of_base_bits flags other GN_BASE_8 (by decide) h
    have c := and_of_base_bits flags other GN_BASE_16 (by decide) h
    simp only [getBase, a, b, c]

/-- Witness of C16: each of the four bases at a concrete flag set. -/
theorem getBase_of_flags_witness :
    getBase GN_GT_0 = 10 ∧ getBase (GN_ANY_BASE ||| GN_BASE_16) = 0 ∧
    getBase (GN_BASE_8 ||| GN_BASE_16) = 8 ∧ getBase (GN_BASE_16 ||| GN_NONNEG) = 16 ∧
    getBase (GN_BASE_16 ||| GN_NONNEG) = getBase GN_BASE_16 :=
  ⟨(getBase_of_flags GN_GT_0).1 (by decide) (by decide) (by decide),
   (getBase_of_flags (GN_ANY_BASE ||| GN_BASE_16)).2.1 (by decide),
   (getBase_of_flags (GN_BASE_8 ||| GN_BASE_16)).2.2.1 (by decide) (by decide),
   (getBase_of_flags (GN_BASE_16 ||| GN_NONNEG)).2.2.2.1 (by decide) (by decide) (by decide),
   (getBase_of_flags (GN_BASE_16 ||| GN_NONNEG)).2.2.2.2.2.2.2.1 GN_BASE_16 (by decide)⟩

/-! ## Reads of the error-name table (C18) -/

/-- C18: `outputError` reads `ename[err]` only when `0 < err <= MAX_ENAME`,
`MAX_ENAME` being 100: a read outside the table can only happen for such an
`err` and a table too short for it; with a table of indices `0..MAX_ENAME`
the name is defined for every `err` and `outputError` completes; every other
`err` gets `?UNKNOWN?` whatever the table holds. -/
theorem ename_read_in_bounds (p : Platform) (err : Int) :
    MAX_ENAME = 100 ∧
    (errName p err = none → 0 < err ∧ err ≤ MAX_ENAME ∧ p.ename.length ≤ err.toNat) ∧
    (0 < err ∧ err ≤ MAX_ENAME → errName p err = p.ename[err.toNat]? ∧ err.toNat ≤ 100) ∧
    ((p.ename.length : Int) = MAX_ENAME + 1 →
      (∃ name, errName p err = some name) ∧
      ∀ useErr flushStdout m s, ∃ s1, outputError p useErr err flushStdout m s = some s1) ∧
    (¬ (0 < err ∧ err ≤ MAX_ENAME) →
      ∀ table, errName { p with ename := table } err = some "?UNKNOWN?".toList) := by
  refine ⟨rfl, ?_, ?_, ?_, ?_⟩
  · intro h
    unfold errName at h
    split at h
    · rename_i hin
      exact ⟨hin.1, hin.2, List.getElem?_eq_none_iff.mp h⟩
    · exact nomatch h
  · intro hin
    unfold errName
    rw [if_pos (by omega)]
    have := hin.2
    unfold MAX_ENAME at this
    exact ⟨rfl, by omega⟩
  · intro hlen
    have htab : MAX_ENAME < (p.ename.length : Int) := by omega
    exact ⟨errName_of_table p err htab,
      fun useErr fl m s => outputError_of_table p useErr err fl m s htab⟩
  · intro hout table
    unfold errName
    rw [if_neg (by omega)]

/-- Witness of C18: error 100, the last index, then error 101 and error -1
on the Linux-like platform, whose table has 101 entries. -/
theorem ename_read_in_bounds_witness :
    (errName linuxPlatform 100 = linuxPlatform.ename[(100 : Int).toNat]? ∧
      (100 : Int).toNat ≤ 100) ∧
    ((∃ name, errName linuxPlatform 100 = some name) ∧
      ∀ useErr flushStdout m s, ∃ s1,
        outputError linuxPlatform useErr 100 flushStdout m s = some s1) ∧
    (∀ table, errName { linuxPlatform with ename := table } 101 = some "?UNKNOWN?".toList) ∧
    (∀ table, errName { linuxPlatform with ename := table } (-1) = some "?UNKNOWN?".toList) :=
  ⟨(ename_read_in_bounds linuxPlatform 100).2.2.1 (by decide),
   (ename_read_in_bounds linuxPlatform 100).2.2.2.1 (by decide),
   (ename_read_in_bounds linuxPlatform 101).2.2.2.2 (by decide),
   (ename_read_in_bounds linuxPlatform (-1)).2.2.2.2 (by decide)⟩

/-! ## Arguments without digits (C19) -/

theorem strtol_of_noConversion (nptr : CString) (base : Nat) (errno : Int)
    (h : noConversion nptr base = true) :
    strtol nptr base errno = { res := 0, endptr := nptr, errno := errno } := by
  simp only [noConversion, decide_eq_true_eq] at h
  simp only [strtol, h, if_true]

theorem getNum_of_endptr_at_start (fname a : CString) (flags : Nat) (name : Option CString)
    (hne : a ≠ []) (hend : (strtol a (getBase flags) 0).endptr = a) :
    getNum fname (some a) flags name =
      if (strtol a (getBase flags) 0).errno ≠ 0 then
        Except.error (gnFail fname "strtol() failed".toList (some a) name)
      else
        Except.error (gnFail fname "nonnumeric characters".toList (some a) name) := by
  simp only [getNum, hne, if_false, hend, ne_eq, not_false_eq_true, if_true]

/-- C19: `getNum` never returns a value for a non-empty argument from which
no digit is converted. The end pointer stays at the start of the argument,
which is not empty, so the call ends the process, with "nonnumeric
characters" unless the conversion itself reported an error (which `strtol`
does not do here: it leaves `errno` at 0 and the result at 0). So it is for
"abc", "-", " " and "+". -/
theorem getNum_no_digits_fails (fname a : CString) (flags : Nat) (name : Option CString)
    (hne : a ≠ []) :
    (noConversion a (getBase flags) = true →
      (strtol a (getBase flags) 0).endptr = a ∧ (strtol a (getBase flags) 0).res = 0 ∧
      getNum fname (some a) flags name =
        Except.error (gnFail fname "nonnumeric characters".toList (some a) name)) ∧
    ((strtol a (getBase flags) 0).endptr = a →
      (getNum fname (some a) flags name =
          Except.error (gnFail fname "strtol() failed".toList (some a) name) ∨
        getNum fname (some a) flags name =
          Except.error (gnFail fname "nonnumeric characters".toList (some a) name)) ∧
      ∀ v, getNum fname (some a) flags name ≠ Except.ok v) ∧
    (noConversion "abc".toList 10 = true ∧ noConversion "-".toList 10 = true ∧
      noConversion " ".toList 10 = true ∧ noConversion "+".toList 10 = true) ∧
    getNum fname (some "abc".toList) 0 name =
      Except.error (gnFail fname "nonnumeric characters".toList (some "abc".toList) name) ∧
    getNum fname (some "-".toList) 0 name =
      Except.error (gnFail fname "nonnumeric characters".toList (some "-".toList) name) ∧
    getNum fname (some " ".toList) 0 name =
      Except.error (gnFail fname "nonnumeric characters".toList (some " ".toList) name) ∧
    getNum fname (some "+".toList) 0 name =
      Except.error (gnFail fname "nonnumeric characters".toList (some "+".toList) name) := by
  refine ⟨?_, ?_, by decide, rfl, rfl, rfl, rfl⟩
  · intro hno
    have hs := strtol_of_noConversion a (getBase flags) 0 hno
    have hend : (strtol a (getBase flags) 0).endptr = a := by rw [hs]
    refine ⟨hend, by rw [hs], ?_⟩
    rw [getNum_of_endptr_at_start fname a flags name hne hend, hs]
    simp
  · intro hend
    have hg := getNum_of_endptr_at_start fname a flags name hne hend
    by_cases herr : (strtol a (getBase flags) 0).errno ≠ 0
    · rw [if_pos herr] at hg
      exact ⟨Or.inl hg, fun v hv => nomatch hg.symm.trans hv⟩
    · rw [if_neg herr] at hg
      exact ⟨Or.inr hg, fun v hv => nomatch hg.symm.trans hv⟩

/-- Witness of C19: "0xz" in base 8 has the digit 0, while "x0" has none. -/
theorem getNum_no_digits_fails_witness :
    ((strtol "x0".toList (getBase GN_BASE_8) 0).endptr = "x0".toList ∧
      (strtol "x0".toList (getBase GN_BASE_8) 0).res = 0 ∧
      getNum "getInt".toList (some "x0".toList) GN_BASE_8 none =
        Except.error (gnFail "getInt".toList "nonnumeric characters".toList
          (some "x0".toList) none)) ∧
    ∀ v, getNum "getInt".toList (some "  -".toList) GN_ANY_BASE none ≠ Except.ok v :=
  ⟨(getNum_no_digits_fails "getInt".toList "x0".toList GN_BASE_8 none (by decide)).1
      (by decide),
   ((getNum_no_digits_fails "getInt".toList "  -".toList GN_ANY_BASE none (by decide)).2.1
      (by decide)).2⟩

/-! ## The text of a validator failure (C14) -/

theorem stderrText_gnFail (fname msg : CString) (arg name : Option CString) :
    stderrText (gnFail fname msg arg name).trace = failureText fname msg arg name := by
  cases name <;> rcases arg with _ | _ | ⟨c, cs⟩ <;>
    simp [gnFail, failureText, stderrText, stderrText_append]

theorem getNum_error_check (fname : CString) (arg : Option CString) (flags : Nat)
    (name : Option CString) (h : Halt) (he : getNum fname arg flags name = Except.error h) :
    ∃ c, h = gnFail fname (checkMsg c) arg name := by
  rw [getNum_eq_validate] at he
  unfold validate at he
  cases hfv : firstViolated arg flags with
  | none => simp [hfv] at he
  | some c =>
    simp only [hfv, Except.error.injEq] at he
    exact ⟨c, he.symm⟩

theorem getInt_error_msg (arg : Option CString) (flags : Nat) (name : Option CString)
    (h : Halt) (he : getInt arg flags name = Except.error h) :
    (∃ c, h = gnFail "getInt".toList (checkMsg c) arg name) ∨
      h = gnFail "getInt".toList "integer out of range".toList arg name := by
  cases hn : getNum "getInt".toList arg flags name with
  | error e =>
    simp only [getInt, hn, Except.error.injEq] at he
    subst he
    exact Or.inl (getNum_error_check _ arg flags name e hn)
  | ok v =>
    rw [getInt_of_getNum_ok arg flags name v hn] at he
    split_ifs at he
    exact Or.inr (Except.error.inj he).symm

/-- C14: every failure of `getLong` or `getInt` writes to standard error the
function's own name and " error", then " (in <name>)" exactly when `name` is
not null, then ": <msg>" and a newline, then " offending text: <arg>" and a
newline exactly when `arg` is neither null nor empty, `msg` being one of the
validator's messages; it then ends the process by `exit(EXIT_FAILURE)` and
gives the caller no value. -/
theorem validator_failure_text (arg : Option CString) (flags : Nat) (name : Option CString)
    (h : Halt) :
    (getLong arg flags name = Except.error h →
      (∃ c, stderrText h.trace = failureText "getLong".toList (checkMsg c) arg name) ∧
      h.how = Termination.exit EXIT_FAILURE) ∧
    (getInt arg flags name = Except.error h →
      ((∃ c, stderrText h.trace = failureText "getInt".toList (checkMsg c) arg name) ∨
        stderrText h.trace =
          failureText "getInt".toList "integer out of range".toList arg name) ∧
      h.how = Termination.exit EXIT_FAILURE) ∧
    EXIT_FAILURE ≠ 0 ∧
    getLong (some []) flags name = Except.error
      (gnFail "getLong".toList "null or empty string".toList (some []) name) ∧
    getInt none flags name = Except.error
      (gnFail "getInt".toList "null or empty string".toList none name) ∧
    failureText "getLong".toList "null or empty string".toList (some []) none =
      "getLong error: null or empty string\n".toList ∧
    failureText "getInt".toList "nonnumeric characters".toList (some "42x".toList)
        (some "count".toList) =
      "getInt error (in count): nonnumeric characters\n offending text: 42x\n".toList := by
  refine ⟨?_, ?_, by decide, rfl, rfl, by decide, by decide⟩
  · intro he
    obtain ⟨c, hc⟩ := getNum_error_check _ arg flags name h he
    subst hc
    exact ⟨⟨c, stderrText_gnFail _ _ _ _⟩, rfl⟩
  · intro he
    rcases getInt_error_msg arg flags name h he with ⟨c, hc⟩ | hc
    · subst hc
      exact ⟨Or.inl ⟨c, stderrText_gnFail _ _ _ _⟩, rfl⟩
    · subst hc
      exact ⟨Or.inr (stderrText_gnFail _ _ _ _), rfl⟩

/-- Witness of C14: "42x" given to `getLong`, and "2147483648" to `getInt`. -/
theorem validator_failure_text_witness :
    ((∃ c, stderrText (gnFail "getLong".toList "nonnumeric characters".toList
        (some "42x".toList) none).trace =
        failureText "getLong".toList (checkMsg c) (some "42x".toList) none) ∧
      (gnFail "getLong".toList "nonnumeric characters".toList (some "42x".toList) none).how =
        Termination.exit EXIT_FAILURE) ∧
    (((∃ c, stderrText (gnFail "getInt".toList "integer out of range".toList
          (some "2147483648".toList) (some "n".toList)).trace =
          failureText "getInt".toList (checkMsg c) (some "2147483648".toList)
            (some "n".toList)) ∨
        stderrText (gnFail "getInt".toList "integer out of range".toList
          (some "2147483648".toList) (some "n".toList)).trace =
          failureText "getInt".toList "integer out of range".toList
            (some "2147483648".toList) (some "n".toList)) ∧
      (gnFail "getInt".toList "integer out of range".toList (some "2147483648".toList)
        (some "n".toList)).how = Termination.exit EXIT_FAILURE) :=
  ⟨(validator_failure_text (some "42x".toList) 0 none _).1 rfl,
   (validator_failure_text (some "2147483648".toList) 0 (some "n".toList) _).2.1 rfl⟩

/-! ## Truncation (C17) -/

theorem take_compose_isInitial (n : Nat) (a b c : CString) :
    List.take n (a ++ List.take n b ++ c) <+: a ++ b ++ c := by
  by_cases h : b.length ≤ n
  · rw [List.take_of_length_le h]
    exact ⟨List.drop n (a ++ b ++ c), List.take_append_drop n _⟩
  · have hlen : n ≤ (a ++ List.take n b).length := by
      simp only [List.length_append, List.length_take]
      omega
    rw [List.take_append_of_le_length hlen]
    refine ⟨List.drop n (a ++ List.take n b) ++ List.drop n b ++ c, ?_⟩
    rw [← List.append_assoc, ← List.append_assoc, List.take_append_drop,
      List.append_assoc a, List.take_append_drop]

/-- C17: truncation is silent and bounded. Whatever the length of the
formatted message, `outputError` completes and writes one text to standard
error; that text is at most `BUF_SIZE - 1 = 499` bytes long and is an initial
part of `"ERROR" ++ annotation ++ " " ++ m' ++ "\n"`, `m'` being the
formatted message cut to 499 bytes. -/
theorem outputError_truncation_bounded (p : Platform) (err : Int) (flushStdout : Bool)
    (m : CString) (s : State) :
    BUF_SIZE - 1 = 499 ∧
    (∀ name, errName p err = some name →
      ∃ buf s1, outputError p true err flushStdout m s = some s1 ∧
        s1.trace = s.trace ++ (if flushStdout then [Event.flushStdout] else []) ++
          [Event.writeStderr buf, Event.flushStderr] ∧
        stderrText s1.trace = stderrText s.trace ++ buf ∧
        buf.length ≤ 499 ∧
        buf <+: "ERROR".toList ++
          (" [".toList ++ name ++ " ".toList ++ p.strerror err ++ "]".toList) ++
          " ".toList ++ m.take 499 ++ "\n".toList) ∧
    (∃ buf s1, outputError p false err flushStdout m s = some s1 ∧
        s1.trace = s.trace ++ (if flushStdout then [Event.flushStdout] else []) ++
          [Event.writeStderr buf, Event.flushStderr] ∧
        stderrText s1.trace = stderrText s.trace ++ buf ∧
        buf.length ≤ 499 ∧
        buf <+: "ERROR".toList ++ ":".toList ++ " ".toList ++ m.take 499 ++ "\n".toList) := by
  refine ⟨rfl, ?_, ?_⟩
  · intro name hname
    refine ⟨_, _, outputError_of_name p err flushStdout m s name hname, rfl, ?_, ?_, ?_⟩
    · simp only [stderrText_append, stderrText_flush, stderrText, List.append_nil]
    · exact List.length_take_le _ _
    · have h := take_compose_isInitial 499 "ERROR".toList
        (" [".toList ++ name ++ " ".toList ++ p.strerror err ++ "]".toList)
        (" ".toList ++ m.take 499 ++ "\n".toList)
      simpa [snprintf, BUF_SIZE, List.append_assoc] using h
  · refine ⟨_, _, outputError_no_err p err flushStdout m s, rfl, ?_, ?_, ?_⟩
    · simp only [stderrText_append, stderrText_flush, stderrText, List.append_nil]
    · exact List.length_take_le _ _
    · have h := take_compose_isInitial 499 "ERROR".toList ":".toList
        (" ".toList ++ m.take 499 ++ "\n".toList)
      simpa [snprintf, BUF_SIZE, List.append_assoc] using h

/-- Witness of C17: a formatted message of 600 bytes. -/
theorem outputError_truncation_bounded_witness :
    ∃ buf s1, outputError linuxPlatform true 2 true (List.replicate 600 'a') ⟨2, []⟩ =
        some s1 ∧
      s1.trace = [] ++ (if true = true then [Event.flushStdout] else []) ++
        [Event.writeStderr buf, Event.flushStderr] ∧
      stderrText s1.trace = stderrText [] ++ buf ∧
      buf.length ≤ 499 ∧
      buf <+: "ERROR".toList ++
        (" [".toList ++ "ENOENT".toList ++ " ".toList ++ linuxPlatform.strerror 2 ++
          "]".toList) ++
        " ".toList ++ (List.replicate 600 'a').take 499 ++ "\n".toList :=
  (outputError_truncation_bounded linuxPlatform 2 true (List.replicate 600 'a') ⟨2, []⟩).2.1
    "ENOENT".toList (by decide)

/-! ## One line per report (C12) -/

theorem take_append_take (n : Nat) (a b c : CString) :
    List.take n (a ++ List.take n b ++ c) = List.take n (a ++ b ++ c) := by
  have h1 : min (n - a.length) n = n - a.length := by omega
  have h2 : n - a.length - min n b.length = n - a.length - b.length := by omega
  simp only [List.append_assoc, List.take_append_eq_append_take, List.take_take,
    List.length_take, h1, h2]

theorem line_eq_take (name str m : CString) :
    snprintf BUF_SIZE ("ERROR".toList ++
      snprintf BUF_SIZE (" [".toList ++ name ++ " ".toList ++ str ++ "]".toList) ++
      " ".toList ++ snprintf BUF_SIZE m ++ "\n".toList) =
    List.take 499 ("ERROR [".toList ++ name ++ " ".toList ++ str ++ "] ".toList ++ m ++
      "\n".toList) := by
  have e1 := take_append_take 499 "ERROR".toList
    (" [".toList ++ name ++ " ".toList ++ str ++ "]".toList)
    (" ".toList ++ List.take 499 m ++ "\n".toList)
  have e2 := take_append_take 499
    ("ERROR".toList ++ (" [".toList ++ name ++ " ".toList ++ str ++ "]".toList) ++ " ".toList)
    m "\n".toList
  simp only [snprintf, BUF_SIZE]
  simp only [List.append_assoc] at e1 e2 ⊢
  rw [e1, e2]
  simp

set_option maxRecDepth 100000 in
/-- C12, refuted as stated: a formatted message of 500 bytes makes `errMsg`
write 499 bytes that do not end with a newline and contain none, and the
message "a\nb" makes it write a text with two newlines. -/
theorem errMsg_long_message_loses_newline :
    (∃ s1, errMsg linuxPlatform (List.replicate 500 'a') ⟨2, []⟩ = some s1 ∧
      (stderrText s1.trace).length = 499 ∧
      (stderrText s1.trace).getLast? = some 'a' ∧
      (stderrText s1.trace).count '\n' = 0) ∧
    (∃ s1, errMsg linuxPlatform "a\nb".toList ⟨2, []⟩ = some s1 ∧
      stderrText s1.trace = "ERROR [ENOENT No such file or directory] a\nb\n".toList ∧
      (stderrText s1.trace).count '\n' = 2) := by
  refine ⟨⟨_, rfl, ?_, ?_, ?_⟩, ⟨_, rfl, ?_, ?_⟩⟩ <;> decide

/-- C12, amended: when the formatted message, the error name and the error
description contain no newline, the text `errMsg` writes is exactly one line
(it ends with a newline and contains no other) if the composed line is
shorter than the 500-byte buffer; if the composed line is 500 bytes or
longer, the text is its first 499 bytes and contains no newline at all. -/
theorem errMsg_one_line_when_fits (p : Platform) (m : CString) (s : State) (name : CString)
    (hname : errName p s.errno = some name)
    (hm : '\n' ∉ m) (hn : '\n' ∉ name) (hd : '\n' ∉ p.strerror s.errno) :
    ∃ s1, errMsg p m s = some s1 ∧
      s1.trace = s.trace ++ [Event.flushStdout,
        Event.writeStderr (List.take 499 ("ERROR [".toList ++ name ++ " ".toList ++
          p.strerror s.errno ++ "] ".toList ++ m ++ "\n".toList)),
        Event.flushStderr] ∧
      (("ERROR [".toList ++ name ++ " ".toList ++ p.strerror s.errno ++ "] ".toList ++ m ++
          "\n".toList).length < BUF_SIZE →
        stderrText s1.trace = stderrText s.trace ++
          ("ERROR [".toList ++ name ++ " ".toList ++ p.strerror s.errno ++ "] ".toList ++
            m ++ "\n".toList) ∧
        ("ERROR [".toList ++ name ++ " ".toList ++ p.strerror s.errno ++ "] ".toList ++
            m ++ "\n".toList).getLast? = some '\n' ∧
        ("ERROR [".toList ++ name ++ " ".toList ++ p.strerror s.errno ++ "] ".toList ++
            m ++ "\n".toList).count '\n' = 1) ∧
      (BUF_SIZE ≤ ("ERROR [".toList ++ name ++ " ".toList ++ p.strerror s.errno ++
          "] ".toList ++ m ++ "\n".toList).length →
        (List.take 499 ("ERROR [".toList ++ name ++ " ".toList ++ p.strerror s.errno ++
          "] ".toList ++ m ++ "\n".toList)).length = 499 ∧
        '\n' ∉ List.take 499 ("ERROR [".toList ++ name ++ " ".toList ++
          p.strerror s.errno ++ "] ".toList ++ m ++ "\n".toList)) := by
  have ho := outputError_of_name p s.errno true m s name hname
  rw [line_eq_take] at ho
  refine ⟨⟨s.errno, _⟩, ?_, rfl, ?_, ?_⟩
  · simp [errMsg, ho]
  · intro hfit
    refine ⟨?_, ?_, ?_⟩
    · rw [List.take_of_length_le (by simp only [BUF_SIZE] at hfit; omega)]
      simp [stderrText_append, stderrText]
    · rw [List.getLast?_append]
      rfl
    · simp only [List.count_append, List.count_eq_zero_of_not_mem hm,
        List.count_eq_zero_of_not_mem hn, List.count_eq_zero_of_not_mem hd]
      decide
  · intro hbig
    simp only [BUF_SIZE] at hbig
    refine ⟨by rw [List.length_take]; omega, ?_⟩
    have hlen : 499 ≤ ("ERROR [".toList ++ name ++ " ".toList ++ p.strerror s.errno ++
        "] ".toList ++ m).length := by
      simp only [List.length_append] at hbig ⊢
      have : "\n".toList.length = 1 := rfl
      omega
    rw [List.take_append_of_le_length hlen]
    intro hmem
    have hx := List.mem_of_mem_take hmem
    simp only [List.mem_append] at hx
    rcases hx with ((((hx | hx) | hx) | hx) | hx) | hx
    · exact absurd hx (by decide)
    · exact hn hx
    · exact absurd hx (by decide)
    · exact hd hx
    · exact absurd hx (by decide)
    · exact hm hx

/-- Witness of the amended C12: a short message on the Linux-like platform. -/
theorem errMsg_one_line_when_fits_witness :
    ∃ s1, errMsg linuxPlatform "open".toList ⟨2, []⟩ = some s1 ∧
      stderrText s1.trace = "ERROR [ENOENT No such file or directory] open\n".toList ∧
      (stderrText s1.trace).getLast? = some '\n' ∧ (stderrText s1.trace).count '\n' = 1 := by
  obtain ⟨s1, h1, _, hfit, _⟩ := errMsg_one_line_when_fits linuxPlatform "open".toList ⟨2, []⟩
    "ENOENT".toList (by decide) (by decide) (by decide) (by decide)
  obtain ⟨ht, hl, hc⟩ := hfit (by decide)
  exact ⟨s1, h1, ht, ht ▸ hl, ht ▸ hc⟩

end TLPI
